import Mathlib

set_option maxRecDepth 40000
set_option maxHeartbeats 2000000

/-!
Verification development for the resume-screening core of the
Resume-Generator repository.

The Python sources under `src/src/screening/` (screening_pipeline.py,
embedding_generator.py, similarity_calculator.py) and the pydantic models
under `src/src/models/` are shallowly embedded below.  Python snake_case
names are rendered in camelCase.  Conventions of the embedding:

* Python floats are modelled as exact rationals (`ℚ`); `np.clip(x, 0, 1)`
  becomes `clip x 0 1 = min 1 (max 0 x)`.
* Numeric computations that are performed inside the scikit-learn library
  (the tf-idf weight of a term, the raw cosine value between two float
  vectors, the two-document tf-idf similarity), the regex search of
  `_extract_required_experience`, and the float `"{:.1%}"` formatting are
  irrational / library-internal and decide none of the claims; they are
  abstracted as an injected `FloatKernels` record, and every theorem about
  the pipeline quantifies over the kernels.  The structural behaviour that
  the claims do talk about (guards for empty text and zero vectors,
  clipping, fit-once state, vector shapes, truncations, weights) is
  embedded concretely from the source.
* The cosine primitive `calculate_cosine_similarity` is additionally
  embedded exactly (real-valued, with `Real.sqrt`) because the claims about
  it concern its numeric behaviour.
* Python `datetime.now()` is modelled by an explicit `now : ℕ` argument;
  dictionaries are association lists in insertion order; iteration order of
  a Python `set` is unspecified, so `list(set(a) & set(b))` is modelled as
  the first-occurrence-ordered list of distinct elements of `a` that occur
  in `b` (only lengths and membership of those lists are relied on, except
  where the spec itself fixes a concrete expected list, which this order
  reproduces).
* The only exception raised by `screen_resume` on schema-valid input is the
  `ValueError` of `["high_school", ...].index(x.level.value)` for a
  certificate-level education entry when `explain` is true; `screen_resume`
  is therefore embedded as `Except String ScreeningResult` (paired with the
  resulting vectorizer state, since state mutations before a raise persist).
  `FeatureExtractor` outputs feed only the untrained optional classifier and
  never influence the returned `ScreeningResult`, so they are not modelled.
-/

namespace ResumeScreening

/-! ## Generic string and list helpers (kernel-reducible replacements for
Python string/sort primitives) -/

/-- Character-wise lowercase, matching Python `str.lower` on ASCII text. -/
def lowerStr (s : String) : String :=
  String.mk (s.data.map Char.toLower)

/-- Python truthiness test `not text or not text.strip()`: true iff every
character is whitespace (including the empty string). -/
def isBlank (s : String) : Bool :=
  s.data.all Char.isWhitespace

/-- Lexicographic comparison of character lists by code point, as Python
compares strings. -/
def strLeChars : List Char → List Char → Bool
  | [], _ => true
  | _ :: _, [] => false
  | a :: as, b :: bs =>
    if a.toNat < b.toNat then true
    else if b.toNat < a.toNat then false
    else strLeChars as bs

/-- Python string `<=` (code-point lexicographic order). -/
def strLe (a b : String) : Bool :=
  strLeChars a.data b.data

/-- Python substring test `needle in hay`. -/
def strContains (hay needle : String) : Bool :=
  (List.range (hay.data.length + 1)).any
    (fun i => needle.data.isPrefixOf (hay.data.drop i))

/-- Stable insertion into a sorted list: `x` goes before the first `y` with
`le x y`. -/
def insertLe {α : Type} (le : α → α → Bool) (x : α) : List α → List α
  | [] => [x]
  | y :: ys => if le x y then x :: y :: ys else y :: insertLe le x ys

/-- Stable insertion sort (Python `sorted` / `Counter.most_common` are
stable; `List.mergeSort` does not reduce in the kernel, so witnesses could
not evaluate it). -/
def sortLe {α : Type} (le : α → α → Bool) : List α → List α
  | [] => []
  | x :: xs => insertLe le x (sortLe le xs)

/-- Model of `list(set(a) & set(b))`: the distinct elements of `a` that also
occur in `b`, in first-occurrence order (Python set iteration order is
unspecified; see the header comment). -/
def pySetInter (a b : List String) : List String :=
  a.dedup.filter (fun x => decide (x ∈ b))

/-- Model of `list(set(a) - set(b))`: the distinct elements of `a` that do
not occur in `b`, in first-occurrence order. -/
def pySetDiff (a b : List String) : List String :=
  a.dedup.filter (fun x => decide (x ∉ b))

/-- `np.clip x lo hi`. -/
def clip (x lo hi : ℚ) : ℚ :=
  min hi (max lo x)

/-- Maximal runs of characters satisfying `p` (used for tokenization and
whitespace splitting). -/
def splitRunsBy (p : Char → Bool) (l : List Char) : List (List Char) :=
  (l.foldr
    (fun c acc =>
      if p c then
        match acc with
        | [] => [[c]]
        | r :: rs => (c :: r) :: rs
      else [] :: acc)
    ([] : List (List Char))).filter (fun r => !r.isEmpty)

/-- Python `text.split()`: whitespace-separated words, empties discarded. -/
def words (s : String) : List String :=
  (splitRunsBy (fun c => !c.isWhitespace) s.data).map String.mk

/-- Python `str.title()` as used on section names: uppercase the first
character of every alphabetic run. -/
def titleChars : Bool → List Char → List Char
  | _, [] => []
  | prevAlpha, c :: cs =>
    (if c.isAlpha ∧ ¬prevAlpha then c.toUpper else c) :: titleChars c.isAlpha cs

/-- `section.replace("_", " ").title()` from `_generate_match_explanation`. -/
def sectionDisplayName (s : String) : String :=
  String.mk (titleChars false (s.data.map (fun c => if c = '_' then ' ' else c)))

/-! ## Data model (src/src/models/resume_schema.py, job_schema.py,
api_schema.py) — only the fields read by the screening subsystem -/

/-- EducationLevel enum of resume_schema.py. -/
inductive EducationLevel where
  | high_school | associate | bachelor | master | doctorate | certificate
deriving DecidableEq

/-- The `.value` string of an EducationLevel member. -/
def levelValue : EducationLevel → String
  | .high_school => "high_school"
  | .associate => "associate"
  | .bachelor => "bachelor"
  | .master => "master"
  | .doctorate => "doctorate"
  | .certificate => "certificate"

/-- JobLevel enum of job_schema.py. -/
inductive JobLevel where
  | entry | mid | senior | lead | executive
deriving DecidableEq

/-- The `.value` string of a JobLevel member. -/
def jobLevelValue : JobLevel → String
  | .entry => "entry"
  | .mid => "mid"
  | .senior => "senior"
  | .lead => "lead"
  | .executive => "executive"

/-- Education entry (resume_schema.py); graduation_date, gpa and
relevant_courses are never read by the screening code. -/
structure Education where
  institution : String
  degree : String
  level : EducationLevel
  major : Option String
deriving DecidableEq

/-- Work-experience entry; only the description list is read by the
screening code (dates feed FeatureExtractor only). -/
structure WorkExperience where
  company : String
  position : String
  description : List String
deriving DecidableEq

/-- Project entry; dates/url/achievements are never read by screening. -/
structure Project where
  name : String
  description : String
  technologies : List String
deriving DecidableEq

/-- Resume (resume_schema.py); `skills` is a dict category → skill list,
kept as an association list in insertion order.  contact_info,
certifications, languages and interests are never read by screening. -/
structure Resume where
  summary : Option String
  skills : List (String × List String)
  experience : List WorkExperience
  education : List Education
  projects : List Project
deriving DecidableEq

/-- JobDescription (job_schema.py); title/company/location/job_type/
industry/salary_range/benefits are never read by the scoring path. -/
structure JobDescription where
  experience_level : JobLevel
  description : String
  requirements : List String
  preferred_qualifications : List String
  responsibilities : List String
  required_skills : List String
  preferred_skills : List String
deriving DecidableEq

/-- SectionScore (api_schema.py); its pydantic validator requires
score ∈ [0, 1], which every constructed value below satisfies. -/
structure SectionScore where
  score : ℚ
  matched_keywords : List String
  missing_keywords : List String
  feedback : String
deriving DecidableEq

/-- ScreeningResult (api_schema.py); `processed_at = datetime.now()` is
modelled by a ℕ timestamp, `section_scores` as an insertion-ordered
association list. -/
structure ScreeningResult where
  overall_score : ℚ
  section_scores : List (String × SectionScore)
  skill_gaps : List String
  recommendations : List String
  match_explanation : String
  processed_at : ℕ
  model_version : String
deriving DecidableEq

/-! ## Abstracted numeric kernels -/

/-- Library-internal float computations, abstracted (see header comment).
`termWeight corpus text term` is the tf-idf weight sklearn assigns to
`term` for document `text` under the vectorizer fitted on `corpus`;
`cosKernel`/`tfidfKernel` are the raw float similarity values;
`reqYearsParse` is the regex year search of `_extract_required_experience`;
`fmtPercent` is Python `"{:.1%}"` formatting.  Every pipeline theorem holds
for arbitrary kernels. -/
structure FloatKernels where
  termWeight : List String → String → String → ℚ
  cosKernel : List ℚ → List ℚ → ℚ
  tfidfKernel : String → String → ℚ
  reqYearsParse : String → Option ℕ
  fmtPercent : ℚ → String

/-! ## EmbeddingGenerator (src/src/screening/embedding_generator.py) -/

/-- Configuration of the TfidfVectorizer: `tfidf_max_features` (default
1000) and the stop-word collection (sklearn is constructed with
`stop_words='english'`). -/
structure EmbedConfig where
  maxFeatures : ℕ
  stopWords : List String

/-- scikit-learn's built-in English stop-word collection
(`sklearn.feature_extraction.text.ENGLISH_STOP_WORDS`, external library
data reproduced here; the claims below depend only on ordinary technical
tokens not being members). -/
def englishStopWords : List String :=
  ["a", "about", "above", "across", "after", "afterwards", "again",
   "against", "all", "almost", "alone", "along", "already", "also",
   "although", "always", "am", "among", "amongst", "amoungst", "amount",
   "an", "and", "another", "any", "anyhow", "anyone", "anything", "anyway",
   "anywhere", "are", "around", "as", "at", "back", "be", "became",
   "because", "become", "becomes", "becoming", "been", "before",
   "beforehand", "behind", "being", "below", "beside", "besides",
   "between", "beyond", "bill", "both", "bottom", "but", "by", "call",
   "can", "cannot", "cant", "co", "con", "could", "couldnt", "cry", "de",
   "describe", "detail", "do", "done", "down", "due", "during", "each",
   "eg", "eight", "either", "eleven", "else", "elsewhere", "empty",
   "enough", "etc", "even", "ever", "every", "everyone", "everything",
   "everywhere", "except", "few", "fifteen", "fifty", "fill", "find",
   "fire", "first", "five", "for", "former", "formerly", "forty", "found",
   "four", "from", "front", "full", "further", "get", "give", "go", "had",
   "has", "hasnt", "have", "he", "hence", "her", "here", "hereafter",
   "hereby", "herein", "hereupon", "hers", "herself", "him", "himself",
   "his", "how", "however", "hundred", "i", "ie", "if", "in", "inc",
   "indeed", "interest", "into", "is", "it", "its", "itself", "keep",
   "last", "latter", "latterly", "least", "less", "ltd", "made", "many",
   "may", "me", "meanwhile", "might", "mill", "mine", "more", "moreover",
   "most", "mostly", "move", "much", "must", "my", "myself", "name",
   "namely", "neither", "never", "nevertheless", "next", "nine", "no",
   "nobody", "none", "noone", "nor", "not", "nothing", "now", "nowhere",
   "of", "off", "often", "on", "once", "one", "only", "onto", "or",
   "other", "others", "otherwise", "our", "ours", "ourselves", "out",
   "over", "own", "part", "per", "perhaps", "please", "put", "rather",
   "re", "same", "see", "seem", "seemed", "seeming", "seems", "serious",
   "several", "she", "should", "show", "side", "since", "sincere", "six",
   "sixty", "so", "some", "somehow", "someone", "something", "sometime",
   "sometimes", "somewhere", "still", "such", "system", "take", "ten",
   "than", "that", "the", "their", "them", "themselves", "then", "thence",
   "there", "thereafter", "thereby", "therefore", "therein", "thereupon",
   "these", "they", "thick", "thin", "third", "this", "those", "though",
   "three", "through", "throughout", "thru", "thus", "to", "together",
   "too", "top", "toward", "towards", "twelve", "twenty", "two", "un",
   "under", "until", "up", "upon", "us", "very", "via", "was", "we",
   "well", "were", "what", "whatever", "when", "whence", "whenever",
   "where", "whereafter", "whereas", "whereby", "wherein", "whereupon",
   "wherever", "whether", "which", "while", "whither", "who", "whoever",
   "whole", "whom", "whose", "why", "will", "with", "within", "without",
   "would", "yet", "you", "your", "yours", "yourself", "yourselves"]

/-- The configuration the repository actually constructs (`config` is `{}`
in the screening pipeline, so `tfidf_max_features` defaults to 1000). -/
def defaultEmbedConfig : EmbedConfig :=
  ⟨1000, englishStopWords⟩

/-- Word character of sklearn's token pattern `\w\w+` (ASCII range). -/
def isWordChar (c : Char) : Bool :=
  c.isAlphanum || c = '_'

/-- sklearn tokenization: lowercase, then maximal runs of word characters
of length ≥ 2. -/
def tokensOf (s : String) : List String :=
  ((splitRunsBy isWordChar ((lowerStr s).data)).filter
    (fun r => r.length ≥ 2)).map String.mk

/-- Adjacent bigrams joined by a space (`ngram_range=(1, 2)` after
stop-word removal). -/
def bigrams : List String → List String
  | a :: b :: rest => (a ++ " " ++ b) :: bigrams (b :: rest)
  | _ => []

/-- sklearn analyzer for `ngram_range=(1,2)` with stop words removed:
surviving unigrams followed by their adjacent bigrams. -/
def analyzerGrams (cfg : EmbedConfig) (s : String) : List String :=
  let ts := (tokensOf s).filter (fun t => !(cfg.stopWords.contains t))
  ts ++ bigrams ts

/-- The vocabulary the vectorizer builds when fitted on `docs`: distinct
analyzer terms across the corpus, limited to the `max_features` most
frequent (stable order among equally frequent terms), indexed — hence
output columns ordered — alphabetically. -/
def buildVocabCorpus (cfg : EmbedConfig) (docs : List String) : List String :=
  let grams := (docs.map (analyzerGrams cfg)).flatten
  let distinct := grams.dedup
  let chosen :=
    if distinct.length ≤ cfg.maxFeatures then distinct
    else (sortLe (fun a b => grams.count b ≤ grams.count a) distinct).take
      cfg.maxFeatures
  sortLe strLe chosen

/-- Zero vector `np.zeros(n)`. -/
def zeros (n : ℕ) : List ℚ :=
  List.replicate n (0 : ℚ)

/-- Vectorizer state: `none` ↔ `vectorizer_fitted == False`, `some corpus`
↔ fitted on `corpus` (vocabulary and idf weights are functions of the fit
corpus). -/
abbrev EmbState := Option (List String)

/-- One row of `fit_transform`/`transform` output under the vectorizer
fitted on `corpus`: one tf-idf weight per vocabulary term, so its length
is the vocabulary size by construction, as for the sklearn array. -/
def vecFor (k : FloatKernels) (cfg : EmbedConfig) (corpus : List String)
    (text : String) : List ℚ :=
  (buildVocabCorpus cfg corpus).map (k.termWeight corpus text)

/-- `_generate_text_embedding`: blank text returns `np.zeros(max_features)`
without touching state; the first non-blank text fits the vectorizer
(unless sklearn raises for an empty vocabulary, which the except-branch
turns into the zero vector with the fitted flag still unset, since the flag
is assigned only after `fit_transform` returns); later texts are only
transformed. -/
def generateTextEmbedding (k : FloatKernels) (cfg : EmbedConfig)
    (st : EmbState) (text : String) : List ℚ × EmbState :=
  if isBlank text then (zeros cfg.maxFeatures, st)
  else
    match st with
    | none =>
      if buildVocabCorpus cfg [text] = [] then (zeros cfg.maxFeatures, none)
      else (vecFor k cfg [text] text, some [text])
    | some corpus => (vecFor k cfg corpus text, some corpus)

/-- `batch_generate_embeddings`: empty input returns `[]`; when unfitted it
fits on the whole batch (empty-vocabulary failure yields zero vectors with
the flag unset); when fitted it only transforms. -/
def batchGenerateEmbeddings (k : FloatKernels) (cfg : EmbedConfig)
    (st : EmbState) (texts : List String) : List (List ℚ) × EmbState :=
  if texts = [] then ([], st)
  else
    match st with
    | none =>
      if buildVocabCorpus cfg texts = [] then
        (texts.map (fun _ => zeros cfg.maxFeatures), none)
      else (texts.map (vecFor k cfg texts), some texts)
    | some corpus => (texts.map (vecFor k cfg corpus), some corpus)

/-- `reset_vectorizer`: reinitializes the vectorizer and clears the fitted
flag. -/
def resetVectorizer (_ : EmbState) : EmbState :=
  none

/-- `get_embedding_dimensions`. -/
def getEmbeddingDimensions (cfg : EmbedConfig) : ℕ :=
  cfg.maxFeatures

/-- Sequential `_generate_text_embedding` calls on one generator instance
(state threads through). -/
def processTexts (k : FloatKernels) (cfg : EmbedConfig) :
    EmbState → List String → List (List ℚ) × EmbState
  | st, [] => ([], st)
  | st, t :: ts =>
    let p := generateTextEmbedding k cfg st t
    let rest := processTexts k cfg p.2 ts
    (p.1 :: rest.1, rest.2)

/-- Flattened skill list `[skill for skills in resume.skills.values() for
skill in skills]`. -/
def allResumeSkills (r : Resume) : List String :=
  (r.skills.map Prod.snd).flatten

/-- `generate_resume_embeddings`: the five section texts are embedded in
order (skills, experience, education, projects, full), threading vectorizer
state. -/
def generateResumeEmbeddings (k : FloatKernels) (cfg : EmbedConfig)
    (st : EmbState) (r : Resume) : List (String × List ℚ) × EmbState :=
  let skillsText := String.intercalate " " (allResumeSkills r)
  let experienceText := String.intercalate " "
    (r.experience.map (fun e => String.intercalate " " e.description))
  let educationText := String.intercalate " "
    (r.education.map (fun e => e.degree ++ " " ++ (e.major.getD "")))
  let projectsText := String.intercalate " "
    (r.projects.map (fun p => p.name ++ " " ++ p.description))
  let fullText := (r.summary.getD "") ++ " " ++ skillsText ++ " " ++
    experienceText ++ " " ++ educationText ++ " " ++ projectsText
  let e1 := generateTextEmbedding k cfg st skillsText
  let e2 := generateTextEmbedding k cfg e1.2 experienceText
  let e3 := generateTextEmbedding k cfg e2.2 educationText
  let e4 := generateTextEmbedding k cfg e3.2 projectsText
  let e5 := generateTextEmbedding k cfg e4.2 fullText
  ([("skills", e1.1), ("experience", e2.1), ("education", e3.1),
    ("projects", e4.1), ("full_resume", e5.1)], e5.2)

/-- `generate_job_embeddings` (skills, requirements, responsibilities,
full, in order). -/
def generateJobEmbeddings (k : FloatKernels) (cfg : EmbedConfig)
    (st : EmbState) (j : JobDescription) : List (String × List ℚ) × EmbState :=
  let skillsText := String.intercalate " "
    (j.required_skills ++ j.preferred_skills)
  let requirementsText := String.intercalate " "
    (j.requirements ++ j.preferred_qualifications)
  let responsibilitiesText := String.intercalate " " j.responsibilities
  let fullText := j.description ++ " " ++ skillsText ++ " " ++
    requirementsText ++ " " ++ responsibilitiesText
  let e1 := generateTextEmbedding k cfg st skillsText
  let e2 := generateTextEmbedding k cfg e1.2 requirementsText
  let e3 := generateTextEmbedding k cfg e2.2 responsibilitiesText
  let e4 := generateTextEmbedding k cfg e3.2 fullText
  ([("skills", e1.1), ("requirements", e2.1),
    ("responsibilities", e3.1), ("full_job", e4.1)], e4.2)

/-! ## SimilarityCalculator (src/src/screening/similarity_calculator.py) -/

/-- `np.allclose(v, 0)` with numpy's default tolerances: every component
within `atol = 1e-8` of zero (`rtol` contributes nothing against 0). -/
def nearZero (v : List ℚ) : Bool :=
  v.all (fun x => decide (|x| ≤ 1 / 100000000))

/-- Dot product of two rational vectors. -/
def dotQ (a b : List ℚ) : ℚ :=
  ((a.zip b).map (fun p => p.1 * p.2)).sum

/-- Squared euclidean norm. -/
def normSqQ (a : List ℚ) : ℚ :=
  (a.map (fun x => x * x)).sum

/-- Exact real-valued embedding of `calculate_cosine_similarity`: return
0.0 when either vector is `np.allclose` to zero; a shape mismatch makes
sklearn's `cosine_similarity` raise, which the except-branch turns into
0.0; otherwise clip the cosine value into [0, 1].  (Real-valued because
the cosine of integer-valued vectors is in general irrational; the
branch conditions are decidable ℚ facts.) -/
noncomputable def calculateCosineSimilarity (a b : List ℚ) : ℝ :=
  if nearZero a || nearZero b then 0
  else if a.length ≠ b.length then 0
  else min 1 (max 0 (((dotQ a b : ℚ) : ℝ) /
    Real.sqrt ((normSqQ a * normSqQ b : ℚ) : ℝ)))

/-- Kernel-abstracted rational counterpart of `calculate_cosine_similarity`
used when composing the pipeline (same guards and clipping, raw float
cosine abstracted). -/
def calcCosineQ (k : FloatKernels) (a b : List ℚ) : ℚ :=
  if nearZero a || nearZero b then 0
  else if a.length ≠ b.length then 0
  else clip (k.cosKernel a b) 0 1

/-- `calculate_tfidf_similarity`: 0.0 for blank input, else the clipped
two-document tf-idf cosine (raw float value abstracted; internal failures
surface as a kernel value of 0, which clipping preserves). -/
def calcTfidfQ (k : FloatKernels) (t1 t2 : String) : ℚ :=
  if isBlank t1 || isBlank t2 then 0
  else clip (k.tfidfKernel t1 t2) 0 1

/-! ## ScreeningPipeline (src/src/screening/screening_pipeline.py) -/

/-- Default `similarity_weights` (the pipeline is constructed with an empty
config throughout the repository). -/
def defaultSectionWeights : List (String × ℚ) :=
  [("skills", 0.35), ("experience", 0.25), ("education", 0.15),
   ("projects", 0.15), ("keywords", 0.10)]

/-- Common-word exclusion list of `_extract_keywords`. -/
def excludedCommonWords : List String :=
  ["that", "with", "from", "they", "have", "this", "will", "were", "been"]

/-- `_extract_keywords`: lowercase whitespace tokens of length > 3 not in
the exclusion list, ranked by frequency (stable on ties, as
`Counter.most_common`), top 20. -/
def extractKeywords (text : String) : List String :=
  let ws := words (lowerStr text)
  let important := ws.filter
    (fun w => w.length > 3 && !(excludedCommonWords.contains w))
  (sortLe (fun a b => important.count b ≤ important.count a)
    important.dedup).take 20

/-- `_find_common_keywords`: lowercased words of length > 3 present in both
texts, sorted, top 10. -/
def findCommonKeywords (t1 t2 : String) : List String :=
  let w1 := (((words t1).filter (fun w => w.length > 3)).map lowerStr).dedup
  let w2 := (((words t2).filter (fun w => w.length > 3)).map lowerStr).dedup
  (sortLe strLe (w1.filter (fun w => decide (w ∈ w2)))).take 10

/-- `_find_missing_keywords`: job keywords whose lowercase form is not a
word of the resume text, top 10. -/
def findMissingKeywords (resumeText jobText : String) : List String :=
  let jobKeywords := extractKeywords jobText
  let resumeWords := (words resumeText).map lowerStr
  (jobKeywords.filter
    (fun kw => !(resumeWords.contains (lowerStr kw)))).take 10

/-- `_extract_full_resume_text`: summary, skills, experience descriptions,
education (degree, major, institution), projects (name, description,
technologies), joined by spaces with empty parts filtered out. -/
def extractFullResumeText (r : Resume) : String :=
  let parts :=
    (match r.summary with | some s => [s] | none => []) ++
    allResumeSkills r ++
    (r.experience.map (fun e => e.description)).flatten ++
    (r.education.map (fun e => [e.degree, e.major.getD "", e.institution])).flatten ++
    (r.projects.map (fun p => [p.name, p.description] ++ p.technologies)).flatten
  String.intercalate " " (parts.filter (fun s => !(s == "")))

/-- Experience-level default table of `_extract_required_experience`. -/
def levelDefaultYears : JobLevel → ℕ
  | .entry => 1
  | .mid => 3
  | .senior => 5
  | .lead => 8
  | .executive => 10

/-- `_extract_required_experience`: regex search over the lowercased joined
requirements (abstracted kernel), falling back to the per-level default
table. -/
def extractRequiredExperience (k : FloatKernels) (j : JobDescription) : ℕ :=
  match k.reqYearsParse (lowerStr (String.intercalate " " j.requirements)) with
  | some n => n
  | none => levelDefaultYears j.experience_level

/-- `_score_skills_section`. -/
def scoreSkillsSection (k : FloatKernels) (r : Resume) (j : JobDescription)
    (rEmb jEmb : List (String × List ℚ)) (explain : Bool) : SectionScore :=
  let resumeSkills := allResumeSkills r
  let jobSkills := j.required_skills ++ j.preferred_skills
  let matched := pySetInter resumeSkills jobSkills
  let missing := pySetDiff jobSkills resumeSkills
  let embeddingSimilarity :=
    match List.lookup "skills" rEmb, List.lookup "skills" jEmb with
    | some a, some b => calcCosineQ k a b
    | _, _ => 0
  let directMatchScore :=
    if jobSkills ≠ [] then (matched.length : ℚ) / (max jobSkills.length 1 : ℕ)
    else 0
  let combined := 0.7 * directMatchScore + 0.3 * embeddingSimilarity
  let feedback :=
    if explain then
      (if matched ≠ [] then
        "Strong match in " ++ toString matched.length ++ " key skills: " ++
          String.intercalate ", " (matched.take 5) ++ ". "
      else "Limited direct skill matches found. ") ++
      (if missing ≠ [] then
        "Consider adding: " ++ String.intercalate ", " (missing.take 3) ++ "."
      else "")
    else "Skills match: " ++ toString matched.length ++ "/" ++
      toString jobSkills.length
  ⟨clip combined 0 1, matched.take 10, missing.take 10, feedback⟩

/-- `_score_experience_section`. -/
def scoreExperienceSection (k : FloatKernels) (r : Resume)
    (j : JobDescription) (rEmb jEmb : List (String × List ℚ))
    (explain : Bool) : SectionScore :=
  let experienceText := String.intercalate " "
    (r.experience.map (fun e => String.intercalate " " e.description))
  let jobText := String.intercalate " " (j.responsibilities ++ j.requirements)
  let embeddingSimilarity :=
    match List.lookup "experience" rEmb, List.lookup "responsibilities" jEmb with
    | some a, some b => calcCosineQ k a b
    | _, _ => 0
  let tfidfSimilarity := calcTfidfQ k experienceText jobText
  let experienceYears := r.experience.length * 2
  let requiredExperience := extractRequiredExperience k j
  let experienceMatch :=
    min ((experienceYears : ℚ) / (max requiredExperience 1 : ℕ)) 1
  let combined := 0.4 * embeddingSimilarity + 0.4 * tfidfSimilarity +
    0.2 * experienceMatch
  let matchedKeywords := findCommonKeywords experienceText jobText
  let missingKeywords := findMissingKeywords experienceText jobText
  let feedback :=
    if explain then
      "Experience shows " ++ toString experienceYears ++
        " years in relevant roles. " ++
      (if matchedKeywords ≠ [] then
        "Strong alignment in: " ++
          String.intercalate ", " (matchedKeywords.take 3) ++ ". "
      else "") ++
      (if missingKeywords ≠ [] then
        "Consider highlighting: " ++
          String.intercalate ", " (missingKeywords.take 3) ++ "."
      else "")
    else "Experience relevance: " ++ k.fmtPercent combined
  ⟨clip combined 0 1, matchedKeywords.take 10, missingKeywords.take 10,
    feedback⟩

/-- The `major or degree` expression of `_score_education_section`
(Python `or` takes the degree when the major is `None` or empty). -/
def eduField (e : Education) : String :=
  match e.major with
  | some m => if m = "" then e.degree else m
  | none => e.degree

/-- `education_fields`: the truthy `major or degree` values. -/
def educationFields (r : Resume) : List String :=
  (r.education.map eduField).filter (fun s => !(s == ""))

/-- Relevant-field keyword list of `_score_education_section`. -/
def relevantFields : List String :=
  ["computer science", "engineering", "data science", "mathematics",
   "technology"]

/-- The `field_match` test: some education field contains some relevant
field as a (lowercased) substring. -/
def educationFieldMatch (r : Resume) : Bool :=
  (educationFields r).any
    (fun f => relevantFields.any
      (fun rf => strContains (lowerStr f) (lowerStr rf)))

/-- Degree-level order list used by the `max(..., key=...)` call; a
certificate level is absent, making `.index` raise `ValueError`. -/
def degreeOrderList : List String :=
  ["high_school", "associate", "bachelor", "master", "doctorate"]

/-- `["high_school", ...].index(level.value)` as a partial lookup. -/
def degreeIndex (l : EducationLevel) : Option ℕ :=
  degreeOrderList.findIdx? (fun s => s == levelValue l)

/-- Python `max(list, key=f)`: first element attaining the maximum. -/
def argmaxBy (f : Education → ℕ) : Education → List Education → Education
  | best, [] => best
  | best, e :: es => argmaxBy f (if f e > f best then e else best) es

/-- `_score_education_section`; raises (ε-branch) exactly when `explain`
is set, education is non-empty and some entry's level is absent from the
degree order list (certificate), mirroring the `ValueError` of `.index`. -/
def scoreEducationSection (k : FloatKernels) (r : Resume)
    (j : JobDescription) (explain : Bool) : Except String SectionScore :=
  let hasBachelor := r.education.any
    (fun e => ["bachelor", "master", "doctorate"].contains (levelValue e.level))
  let fieldMatch := educationFieldMatch r
  let hasAdvanced := r.education.any
    (fun e => ["master", "doctorate"].contains (levelValue e.level))
  let educationScore :=
    if r.education ≠ [] then
      (if hasBachelor then (0.6 : ℚ) else 0) +
      (if fieldMatch then 0.3 else 0) +
      (if hasAdvanced then 0.1 else 0)
    else 0
  let matchedKeywords :=
    if r.education ≠ [] ∧ fieldMatch then educationFields r else []
  let jobRequirementsText := lowerStr (String.intercalate " " j.requirements)
  let missingKeywords :=
    (if strContains jobRequirementsText "bachelor" ∧
        ¬r.education.any (fun e => levelValue e.level == "bachelor") then
      ["Bachelor\x27s degree"] else []) ++
    (if strContains jobRequirementsText "master" ∧
        ¬r.education.any (fun e => levelValue e.level == "master") then
      ["Master\x27s degree"] else [])
  if explain ∧ r.education ≠ [] ∧
      r.education.any (fun e => (degreeIndex e.level).isNone) then
    Except.error ("\x27" ++ "certificate" ++ "\x27 is not in list")
  else
    let feedback :=
      if explain then
        if hEd : r.education ≠ [] then
          let highest := argmaxBy (fun e => (degreeIndex e.level).getD 0)
            (r.education.head (by simpa using hEd)) r.education.tail
          "Education: " ++ highest.degree ++ " from " ++
            highest.institution ++ ". " ++
          (if fieldMatch then "Relevant field of study. "
           else "Consider highlighting relevant coursework. ")
        else "No education information provided. "
      else "Education match: " ++ k.fmtPercent educationScore
    Except.ok ⟨clip educationScore 0 1, matchedKeywords, missingKeywords,
      feedback⟩

/-- `_score_projects_section`. -/
def scoreProjectsSection (k : FloatKernels) (r : Resume)
    (j : JobDescription) (explain : Bool) : SectionScore :=
  if r.projects = [] then
    ⟨0, [], ["Personal projects", "Portfolio"],
      "No projects listed. Consider adding relevant projects to showcase skills."⟩
  else
    let projectTechnologies := (r.projects.map Project.technologies).flatten
    let projectDescriptions := String.intercalate " "
      (r.projects.map Project.description)
    let jobSkills := j.required_skills ++ j.preferred_skills
    let matchedTechnologies := pySetInter projectTechnologies jobSkills
    let technologyMatch :=
      if jobSkills ≠ [] then
        (matchedTechnologies.length : ℚ) / (max jobSkills.length 1 : ℕ)
      else 0
    let jobText := String.intercalate " "
      (j.responsibilities ++ j.requirements)
    let descriptionSimilarity := calcTfidfQ k projectDescriptions jobText
    let combined := 0.6 * technologyMatch + 0.4 * descriptionSimilarity
    let missingTechnologies := pySetDiff jobSkills projectTechnologies
    let feedback :=
      if explain then
        "Projects demonstrate " ++ toString matchedTechnologies.length ++
          " relevant technologies. " ++
        (if matchedTechnologies ≠ [] then
          "Strong alignment: " ++
            String.intercalate ", " (matchedTechnologies.take 3) ++ ". "
        else "") ++
        (if missingTechnologies ≠ [] then
          "Consider projects with: " ++
            String.intercalate ", " (missingTechnologies.take 2) ++ "."
        else "")
      else "Project relevance: " ++ k.fmtPercent combined
    ⟨clip combined 0 1, matchedTechnologies.take 10,
      missingTechnologies.take 10, feedback⟩

/-- `_score_keyword_matching` (the feature maps it receives are unused by
the source function). -/
def scoreKeywordMatching (k : FloatKernels) (r : Resume)
    (j : JobDescription) (explain : Bool) : SectionScore :=
  let resumeText := extractFullResumeText r
  let jobText := j.description ++ " " ++
    String.intercalate " " j.requirements ++ " " ++
    String.intercalate " " j.responsibilities
  let tfidfSimilarity := calcTfidfQ k resumeText jobText
  let resumeKeywords := extractKeywords resumeText
  let jobKeywords := extractKeywords jobText
  let matchedKeywords := pySetInter resumeKeywords jobKeywords
  let missingKeywords := pySetDiff jobKeywords resumeKeywords
  let keywordDensity :=
    if jobKeywords ≠ [] then
      (matchedKeywords.length : ℚ) / (max jobKeywords.length 1 : ℕ)
    else 0
  let combined := 0.7 * tfidfSimilarity + 0.3 * keywordDensity
  let feedback :=
    if explain then
      "Keyword analysis shows " ++ toString matchedKeywords.length ++
        " matches out of " ++ toString jobKeywords.length ++
        " key terms. " ++
      (if missingKeywords ≠ [] then
        "Consider incorporating: " ++
          String.intercalate ", " (missingKeywords.take 5) ++ "."
      else "")
    else "Keyword match: " ++ k.fmtPercent combined
  ⟨clip combined 0 1, matchedKeywords.take 15, missingKeywords.take 15,
    feedback⟩

/-- Accumulators of `_calculate_weighted_score`: total weighted score and
total weight over the weight entries whose section is present. -/
def weightedTotals (weights : List (String × ℚ))
    (scores : List (String × SectionScore)) : ℚ × ℚ :=
  match weights with
  | [] => (0, 0)
  | (nm, w) :: ws =>
    let rest := weightedTotals ws scores
    match List.lookup nm scores with
    | some sc => (rest.1 + sc.score * w, rest.2 + w)
    | none => rest

/-- `_calculate_weighted_score`. -/
def calculateWeightedScore (weights : List (String × ℚ))
    (scores : List (String × SectionScore)) : ℚ :=
  let t := weightedTotals weights scores
  if t.2 > 0 then t.1 / t.2 else 0

/-- `_analyze_skill_gaps`: required skills (in job order) whose lowercase
form is absent from the lowercased candidate skills, first 5. -/
def analyzeSkillGaps (r : Resume) (j : JobDescription) : List String :=
  let resumeSkillsLower := (allResumeSkills r).map lowerStr
  (j.required_skills.filter
    (fun s => !(resumeSkillsLower.contains (lowerStr s)))).take 5

/-- `_generate_recommendations`. -/
def generateRecommendations (scores : List (String × SectionScore))
    (skillGaps : List String) : List String :=
  let r1 := match List.lookup "skills" scores with
    | some sc =>
      if sc.score < 0.7 then
        ["Strengthen skills section by adding: " ++
          String.intercalate ", " (skillGaps.take 3)]
      else []
    | none => []
  let r2 := match List.lookup "experience" scores with
    | some sc =>
      if sc.score < 0.6 then
        ["Enhance experience descriptions with more specific achievements and metrics"]
      else []
    | none => []
  let r3 := match List.lookup "projects" scores with
    | some sc =>
      if sc.score < 0.5 then
        ["Add relevant projects that demonstrate key skills mentioned in job requirements"]
      else []
    | none => []
  let r4 := match List.lookup "keywords" scores with
    | some sc =>
      if sc.score < 0.6 then
        ["Incorporate key terms throughout resume: " ++
          String.intercalate ", " (sc.missing_keywords.take 3)]
      else []
    | none => []
  let r5 :=
    if (scores.filter (fun p => decide (p.2.score < 0.5))).length > 2 then
      ["Consider significant resume restructuring to better align with job requirements"]
    else []
  (r1 ++ r2 ++ r3 ++ r4 ++ r5).take 5

/-- `_generate_match_explanation`. -/
def generateMatchExplanation (k : FloatKernels)
    (scores : List (String × SectionScore)) (overall : ℚ)
    (skillGaps : List String) : String :=
  let band :=
    if overall ≥ 0.8 then
      "This resume shows excellent alignment with the job requirements."
    else if overall ≥ 0.6 then
      "This resume demonstrates good potential fit with some areas for improvement."
    else if overall ≥ 0.4 then
      "This resume shows moderate alignment with significant gaps to address."
    else
      "This resume requires substantial improvements to match job requirements."
  let sectionParts := scores.map (fun p =>
    let nm := sectionDisplayName p.1
    if p.2.score ≥ 0.7 then
      nm ++ ": Strong match (" ++ k.fmtPercent p.2.score ++ ")"
    else if p.2.score ≥ 0.5 then
      nm ++ ": Moderate match (" ++ k.fmtPercent p.2.score ++ ")"
    else
      nm ++ ": Needs improvement (" ++ k.fmtPercent p.2.score ++ ")")
  let gapParts :=
    if skillGaps ≠ [] then
      ["Key missing skills: " ++ String.intercalate ", " (skillGaps.take 3)]
    else []
  String.intercalate " " ([band] ++ sectionParts ++ gapParts)

/-- `screen_resume`: embeddings are generated (mutating vectorizer state)
before the section scores; the education scorer's possible `ValueError`
propagates as the error case, after which the mutated state persists.  The
model version is the default `"1.0"` and `processed_at` is the `now`
timestamp.  Feature extraction feeds only the untrained classifier hook
and never the returned result. -/
def screenResume (k : FloatKernels) (cfg : EmbedConfig) (st : EmbState)
    (r : Resume) (j : JobDescription) (explain : Bool) (now : ℕ) :
    Except String ScreeningResult × EmbState :=
  let re := generateResumeEmbeddings k cfg st r
  let je := generateJobEmbeddings k cfg re.2 j
  let sectionSkills := scoreSkillsSection k r j re.1 je.1 explain
  let sectionExperience := scoreExperienceSection k r j re.1 je.1 explain
  match scoreEducationSection k r j explain with
  | .error e => (.error e, je.2)
  | .ok sectionEducation =>
    let sectionProjects := scoreProjectsSection k r j explain
    let sectionKeywords := scoreKeywordMatching k r j explain
    let sectionScores :=
      [("skills", sectionSkills), ("experience", sectionExperience),
       ("education", sectionEducation), ("projects", sectionProjects),
       ("keywords", sectionKeywords)]
    let overall := calculateWeightedScore defaultSectionWeights sectionScores
    let skillGaps := analyzeSkillGaps r j
    let recommendations := generateRecommendations sectionScores skillGaps
    let explanation :=
      if explain then
        generateMatchExplanation k sectionScores overall skillGaps
      else ""
    (.ok ⟨overall, sectionScores, skillGaps, recommendations, explanation,
      now, "1.0"⟩, je.2)

/-- The sentinel result `batch_screen_resumes` substitutes for a failed
screening. -/
def failedResult (now : ℕ) : ScreeningResult :=
  ⟨0, [], [], ["Resume screening failed - please check format"],
    "Error during processing", now, "1.0"⟩

/-- Collapse a screening outcome to its result, substituting the sentinel
on failure (the `except` branch of the batch loop). -/
def sentinelOr (e : Except String ScreeningResult) (now : ℕ) :
    ScreeningResult :=
  match e with
  | .ok v => v
  | .error _ => failedResult now

/-- `batch_screen_resumes`: sequential iteration, vectorizer state threads
through, each failure replaced in place by the sentinel result. -/
def batchScreenResumes (k : FloatKernels) (cfg : EmbedConfig)
    (st : EmbState) : List Resume → JobDescription → Bool → ℕ →
    List ScreeningResult × EmbState
  | [], _, _, _ => ([], st)
  | r :: rs, j, explain, now =>
    let p := screenResume k cfg st r j explain now
    let rest := batchScreenResumes k cfg p.2 rs j explain now
    (sentinelOr p.1 now :: rest.1, rest.2)

/-! ## Companions for case analysis

`sectionScoresOf` and `screenedResult` restate the success payload of
`screenResume`; the lemma `screenResume_ok_shape` below proves that every
successful screening returns exactly this value, which the theorems use to
destructure results. -/

/-- The five-entry section-score map a successful `screen_resume` builds
(education entry supplied by the caller from the education scorer's
success case). -/
def sectionScoresOf (k : FloatKernels) (cfg : EmbedConfig) (st : EmbState)
    (r : Resume) (j : JobDescription) (explain : Bool)
    (sEdu : SectionScore) : List (String × SectionScore) :=
  let re := generateResumeEmbeddings k cfg st r
  let je := generateJobEmbeddings k cfg re.2 j
  [("skills", scoreSkillsSection k r j re.1 je.1 explain),
   ("experience", scoreExperienceSection k r j re.1 je.1 explain),
   ("education", sEdu),
   ("projects", scoreProjectsSection k r j explain),
   ("keywords", scoreKeywordMatching k r j explain)]

/-- The ScreeningResult a successful `screen_resume` returns. -/
def screenedResult (k : FloatKernels) (cfg : EmbedConfig) (st : EmbState)
    (r : Resume) (j : JobDescription) (explain : Bool) (now : ℕ)
    (sEdu : SectionScore) : ScreeningResult :=
  let scores := sectionScoresOf k cfg st r j explain sEdu
  let overall := calculateWeightedScore defaultSectionWeights scores
  let skillGaps := analyzeSkillGaps r j
  ⟨overall, scores, skillGaps, generateRecommendations scores skillGaps,
    if explain then generateMatchExplanation k scores overall skillGaps
    else "",
    now, "1.0"⟩

/-! ## Concrete instances used by witnesses and counterexamples -/

/-- Constant-zero stand-ins for the abstracted float kernels.  They are
used only for runs whose asserted facts are kernel-independent: the
kernels influence score values and feedback/explanation strings, and the
facts stated about the zeroKernels runs below (whether screening succeeds
or raises, keyword-list contents and lengths, skill gaps, timestamps, and
agreement between two runs sharing the kernels) hold for every kernel
choice, as the corresponding kernel-quantified theorems show.  The one
counterexample that asserts a concrete score (C7) uses `c7Kernels`
instead, which reproduces the library's values on its input. -/
def zeroKernels : FloatKernels :=
  ⟨fun _ _ _ => 0, fun _ _ => 0, fun _ _ => 0, fun _ => none, fun _ => ""⟩

/-- A minimal schema-valid resume (no sections filled). -/
def emptyResume : Resume :=
  ⟨none, [], [], [], []⟩

/-- A minimal schema-valid job description. -/
def emptyJob : JobDescription :=
  ⟨.mid, "", [], [], [], [], []⟩

/-- A resume whose only education entry has certificate level, making
`screen_resume` raise under `explain=True`. -/
def certResume : Resume :=
  ⟨none, [], [], [⟨"State University", "ML Certificate", .certificate, none⟩], []⟩

/-- One bachelor-level education entry with a relevant-field major. -/
def eduEntry : Education :=
  ⟨"uni", "bs", .bachelor, some "engineering"⟩

/-- A resume with sixteen relevant education entries (drives the education
matched-keyword list past fifteen). -/
def resume16 : Resume :=
  ⟨none, [], [], List.replicate 16 eduEntry, []⟩

/-- Candidate of the C7 counterexample: a single Python skill. -/
def dupResume : Resume :=
  ⟨none, [("programming", ["Python"])], [], [], []⟩

/-- Job of the C7 counterexample: Python is both required and preferred,
so the concatenated skill list has two entries while the union has one. -/
def dupJob : JobDescription :=
  ⟨.mid, "", [], [], [], ["Python"], ["Python"]⟩

/-- Profile of the spec's worked skills example. -/
def exampleResume : Resume :=
  ⟨none, [("programming", ["Python", "SQL"])], [], [], []⟩

/-- Job of the spec's worked skills example. -/
def exampleJob : JobDescription :=
  ⟨.mid, "", [], [], [], ["Python", "SQL", "Go"], []⟩

/-- Reference screening run on the minimal inputs at timestamp 0. -/
def witnessRun : Except String ScreeningResult × EmbState :=
  screenResume zeroKernels defaultEmbedConfig none emptyResume emptyJob true 0

/-- The (successful) result of `witnessRun`. -/
def witnessRes : ScreeningResult :=
  sentinelOr witnessRun.1 0

/-- The same screening run at timestamp 1. -/
def c4runB : Except String ScreeningResult × EmbState :=
  screenResume zeroKernels defaultEmbedConfig none emptyResume emptyJob true 1

/-- The (successful) result of `c4runB`. -/
def c4resB : ScreeningResult :=
  sentinelOr c4runB.1 1

/-- Screening run on the sixteen-education resume. -/
def c3run : Except String ScreeningResult × EmbState :=
  screenResume zeroKernels defaultEmbedConfig none resume16 emptyJob false 0

/-- The (successful) result of `c3run`. -/
def c3res : ScreeningResult :=
  sentinelOr c3run.1 0

/-- Kernels for the run on (dupResume, dupJob), chosen to return exactly
the values the library produces on that input.  The vectorizer is fitted
on the skills text "Python", so the vocabulary is the single term
"python"; every non-blank text of the run ("Python", "Python Python" and
the two full texts) has a single-term count vector that l2-normalizes to
[1.0], so every tf-idf weight consulted is 1.0 (`termWeight` = 1), and
the only cosine computed outside the zero-vector guard is
cosine([1.0], [1.0]) = 1.0 (`cosKernel` = 1).  The two-document tf-idf
kernel is reached only under the blank-text guard (experience and
keyword texts of the job are blank), the requirements list is empty so
the year regex matches nothing (`reqYearsParse` = none), and the percent
formatter feeds only feedback strings that no asserted fact reads. -/
def c7Kernels : FloatKernels :=
  ⟨fun _ _ _ => 1, fun _ _ => 1, fun _ _ => 0, fun _ => none, fun _ => ""⟩

/-- Screening run on the duplicated-skill job, with the exact kernels for
this input. -/
def c7run : Except String ScreeningResult × EmbState :=
  screenResume c7Kernels defaultEmbedConfig none dupResume dupJob false 0

/-- The (successful) result of `c7run`. -/
def c7res : ScreeningResult :=
  sentinelOr c7run.1 0

/-- The skills SectionScore inside `c7res`. -/
def c7skills : SectionScore :=
  (List.lookup "skills" c7res.section_scores).getD ⟨0, [], [], ""⟩

/-- A section score with an arbitrary in-range value for the C10 witness. -/
def demoSectionScore : SectionScore :=
  ⟨0.42, [], [], "demo"⟩

/-! ## General lemmas -/

theorem lookup_mem {α β : Type} [DecidableEq α] {a : α} {b : β}
    {l : List (α × β)} (h : List.lookup a l = some b) : (a, b) ∈ l := by
  induction l with
  | nil => simp [List.lookup] at h
  | cons hd tl ih =>
    rcases hd with ⟨k, v⟩
    rw [List.lookup_cons] at h
    by_cases hk : a = k
    · subst hk
      simp at h
      subst h
      exact List.mem_cons_self _ _
    · have : (a == k) = false := beq_false_of_ne hk
      rw [this] at h
      exact List.mem_cons_of_mem _ (ih h)

theorem clip_nonneg (x : ℚ) : 0 ≤ clip x 0 1 := by
  unfold clip
  exact le_min (by norm_num) (le_max_left 0 x)

theorem clip_le_one (x : ℚ) : clip x 0 1 ≤ 1 :=
  min_le_left 1 _

theorem clip_unit (x : ℚ) : 0 ≤ clip x 0 1 ∧ clip x 0 1 ≤ 1 :=
  ⟨clip_nonneg x, clip_le_one x⟩

theorem clip_eq_self {x : ℚ} (h0 : 0 ≤ x) (h1 : x ≤ 1) : clip x 0 1 = x := by
  unfold clip
  rw [max_eq_right h0, min_eq_right h1]

theorem calcCosineQ_unit (k : FloatKernels) (a b : List ℚ) :
    0 ≤ calcCosineQ k a b ∧ calcCosineQ k a b ≤ 1 := by
  unfold calcCosineQ
  split
  · norm_num
  · split
    · norm_num
    · exact clip_unit _

theorem calcTfidfQ_unit (k : FloatKernels) (t1 t2 : String) :
    0 ≤ calcTfidfQ k t1 t2 ∧ calcTfidfQ k t1 t2 ≤ 1 := by
  unfold calcTfidfQ
  split
  · norm_num
  · exact clip_unit _

theorem insertLe_perm {α : Type} (le : α → α → Bool) (x : α) (l : List α) :
    (insertLe le x l).Perm (x :: l) := by
  induction l with
  | nil => exact List.Perm.refl _
  | cons y ys ih =>
    simp only [insertLe]
    split
    · exact List.Perm.refl _
    · exact (ih.cons y).trans (List.Perm.swap x y ys)

theorem sortLe_perm {α : Type} (le : α → α → Bool) (l : List α) :
    (sortLe le l).Perm l := by
  induction l with
  | nil => exact List.Perm.refl _
  | cons x xs ih => exact (insertLe_perm le x (sortLe le xs)).trans (ih.cons x)

theorem sortLe_length {α : Type} (le : α → α → Bool) (l : List α) :
    (sortLe le l).length = l.length :=
  (sortLe_perm le l).length_eq

theorem take_length_le {α : Type} (n : ℕ) (l : List α) :
    (l.take n).length ≤ n := by
  rw [List.length_take]
  exact min_le_left n l.length

theorem pySetInter_length_le (a b : List String) :
    (pySetInter a b).length ≤ b.length := by
  have hnd : (pySetInter a b).Nodup :=
    List.Nodup.filter _ a.nodup_dedup
  have hsub : pySetInter a b ⊆ b := by
    intro x hx
    have := List.of_mem_filter hx
    simpa using this
  exact (hnd.subperm hsub).length_le

theorem ratio_unit {m n : ℕ} (h : m ≤ n) :
    0 ≤ (m : ℚ) / (max n 1 : ℕ) ∧ (m : ℚ) / (max n 1 : ℕ) ≤ 1 := by
  constructor
  · positivity
  · rw [div_le_one (by positivity)]
    calc (m : ℚ) ≤ (n : ℚ) := by exact_mod_cast h
    _ ≤ ((max n 1 : ℕ) : ℚ) := by exact_mod_cast Nat.le_max_left n 1

theorem dotQ_self (v : List ℚ) : dotQ v v = normSqQ v := by
  induction v with
  | nil => rfl
  | cons x xs ih =>
    simp only [dotQ, normSqQ, List.zip_cons_cons, List.map_cons,
      List.sum_cons] at ih ⊢
    rw [ih]

theorem normSqQ_nonneg (v : List ℚ) : 0 ≤ normSqQ v := by
  unfold normSqQ
  apply List.sum_nonneg
  intro x hx
  rcases List.mem_map.mp hx with ⟨y, _, rfl⟩
  exact mul_self_nonneg y

theorem normSqQ_pos_of_not_nearZero {v : List ℚ} (h : nearZero v = false) :
    0 < normSqQ v := by
  unfold nearZero at h
  have hna : ¬ (∀ x ∈ v, |x| ≤ 1 / 100000000) := by
    intro hall
    have htrue : v.all (fun x => decide (|x| ≤ 1 / 100000000)) = true := by
      rw [List.all_eq_true]
      intro x hx
      simpa using hall x hx
    rw [h] at htrue
    exact Bool.false_ne_true htrue
  push_neg at hna
  rcases hna with ⟨x, hx, hax⟩
  have hx2 : 0 < x * x := by
    have hxne : x ≠ 0 := by
      have habs : 0 < |x| := lt_trans (by norm_num) hax
      exact abs_pos.mp habs
    exact mul_self_pos.mpr hxne
  have hmem : x * x ∈ v.map (fun y => y * y) :=
    List.mem_map.mpr ⟨x, hx, rfl⟩
  have hle : x * x ≤ normSqQ v := by
    unfold normSqQ
    apply List.single_le_sum _ _ hmem
    intro y hy
    rcases List.mem_map.mp hy with ⟨z, _, rfl⟩
    exact mul_self_nonneg z
  exact lt_of_lt_of_le hx2 hle

theorem contains_eq_decide_mem (l : List String) (a : String) :
    l.contains a = decide (a ∈ l) := by
  by_cases h : a ∈ l
  · simp [h]
  · simp [h]

theorem whitespace_toLower_not_word (c : Char) (h : c.isWhitespace = true) :
    isWordChar c.toLower = false := by
  simp [Char.isWhitespace] at h
  unfold isWordChar
  rcases h with ((rfl | rfl) | rfl) | rfl <;> decide

theorem splitRunsBy_nil_of_none {p : Char → Bool} {l : List Char}
    (h : ∀ c ∈ l, p c = false) : splitRunsBy p l = [] := by
  induction l with
  | nil => rfl
  | cons c cs ih =>
    have hc : p c = false := h c (List.mem_cons_self _ _)
    have ih' := ih (fun x hx => h x (List.mem_cons_of_mem _ hx))
    unfold splitRunsBy at ih' ⊢
    rw [List.foldr_cons, hc]
    simpa using ih'

theorem tokensOf_nil_of_blank {t : String} (h : isBlank t = true) :
    tokensOf t = [] := by
  unfold tokensOf
  have hall : ∀ c ∈ (lowerStr t).data, isWordChar c = false := by
    intro c hc
    unfold lowerStr at hc
    rcases List.mem_map.mp hc with ⟨c0, hc0, rfl⟩
    have hws : c0.isWhitespace = true := by
      unfold isBlank at h
      rw [List.all_eq_true] at h
      simpa using h c0 hc0
    exact whitespace_toLower_not_word c0 hws
  rw [splitRunsBy_nil_of_none hall]
  rfl

theorem analyzerGrams_blank (cfg : EmbedConfig) {t : String}
    (h : isBlank t = true) : analyzerGrams cfg t = [] := by
  unfold analyzerGrams
  rw [tokensOf_nil_of_blank h]
  rfl

theorem buildVocabCorpus_single_blank (cfg : EmbedConfig) {t : String}
    (h : isBlank t = true) : buildVocabCorpus cfg [t] = [] := by
  simp [buildVocabCorpus, analyzerGrams_blank cfg h, sortLe]

theorem buildVocabCorpus_length_le (cfg : EmbedConfig) (docs : List String) :
    (buildVocabCorpus cfg docs).length ≤ cfg.maxFeatures := by
  simp only [buildVocabCorpus]
  rw [sortLe_length]
  split
  · assumption
  · exact take_length_le _ _

theorem generateTextEmbedding_fitted_state (k : FloatKernels)
    (cfg : EmbedConfig) (c : List String) (t : String) :
    (generateTextEmbedding k cfg (some c) t).2 = some c := by
  unfold generateTextEmbedding
  split
  · rfl
  · rfl

theorem batchGenerateEmbeddings_fitted_state (k : FloatKernels)
    (cfg : EmbedConfig) (c : List String) (texts : List String) :
    (batchGenerateEmbeddings k cfg (some c) texts).2 = some c := by
  unfold batchGenerateEmbeddings
  split
  · rfl
  · rfl

theorem processTexts_fitted_state (k : FloatKernels) (cfg : EmbedConfig)
    (c : List String) : ∀ texts,
    (processTexts k cfg (some c) texts).2 = some c := by
  intro texts
  induction texts with
  | nil => rfl
  | cons t ts ih =>
    simp only [processTexts, generateTextEmbedding_fitted_state]
    exact ih

theorem weightedTotals_bounds (weights : List (String × ℚ))
    (scores : List (String × SectionScore))
    (hw : ∀ p ∈ weights, 0 ≤ p.2)
    (hs : ∀ p ∈ scores, 0 ≤ p.2.score ∧ p.2.score ≤ 1) :
    0 ≤ (weightedTotals weights scores).1 ∧
    (weightedTotals weights scores).1 ≤ (weightedTotals weights scores).2 := by
  induction weights with
  | nil => simp [weightedTotals]
  | cons hd tl ih =>
    rcases hd with ⟨nm, w⟩
    have hw0 : 0 ≤ w := hw (nm, w) (List.mem_cons_self _ _)
    have ih' := ih (fun p hp => hw p (List.mem_cons_of_mem _ hp))
    simp only [weightedTotals]
    cases hlk : List.lookup nm scores with
    | none => exact ih'
    | some sc =>
      have hsc := hs (nm, sc) (lookup_mem hlk)
      constructor
      · have hm := mul_nonneg hsc.1 hw0
        have := ih'.1
        simp only []
        linarith
      · have hmul : sc.score * w ≤ w := by
          calc sc.score * w ≤ 1 * w := mul_le_mul_of_nonneg_right hsc.2 hw0
          _ = w := one_mul w
        have := ih'.2
        simp only []
        linarith

theorem calculateWeightedScore_unit (weights : List (String × ℚ))
    (scores : List (String × SectionScore))
    (hw : ∀ p ∈ weights, 0 ≤ p.2)
    (hs : ∀ p ∈ scores, 0 ≤ p.2.score ∧ p.2.score ≤ 1) :
    0 ≤ calculateWeightedScore weights scores ∧
    calculateWeightedScore weights scores ≤ 1 := by
  have hb := weightedTotals_bounds weights scores hw hs
  simp only [calculateWeightedScore]
  split
  · constructor
    · exact div_nonneg hb.1 (le_of_lt (by assumption))
    · rw [div_le_one (by assumption)]
      exact hb.2
  · norm_num

theorem weightedTotals_zero (weights : List (String × ℚ))
    (scores : List (String × SectionScore))
    (hz : ∀ p ∈ weights, p.2 = 0 ∨ List.lookup p.1 scores = none) :
    weightedTotals weights scores = (0, 0) := by
  induction weights with
  | nil => rfl
  | cons hd tl ih =>
    rcases hd with ⟨nm, w⟩
    have ih' := ih (fun p hp => hz p (List.mem_cons_of_mem _ hp))
    simp only [weightedTotals, ih']
    rcases hz (nm, w) (List.mem_cons_self _ _) with h0 | hnone
    · subst h0
      cases hlk : List.lookup nm scores <;> simp
    · rw [hnone]

theorem weightedTotals_single (weights : List (String × ℚ))
    (scores : List (String × SectionScore)) (nm : String) (w : ℚ)
    (sc : SectionScore)
    (hnodup : (weights.map Prod.fst).Nodup)
    (hmem : (nm, w) ∈ weights)
    (hsc : List.lookup nm scores = some sc)
    (honly : ∀ p ∈ weights, p.1 ≠ nm →
      p.2 = 0 ∨ List.lookup p.1 scores = none) :
    weightedTotals weights scores = (sc.score * w, w) := by
  induction weights with
  | nil => exact absurd hmem (List.not_mem_nil _)
  | cons hd tl ih =>
    rcases hd with ⟨a, wa⟩
    have hnodup' : (a ∉ tl.map Prod.fst) ∧ (tl.map Prod.fst).Nodup := by
      simpa using List.nodup_cons.mp hnodup
    rcases List.mem_cons.mp hmem with heq | htl
    · injection heq with h1 h2
      subst h1
      subst h2
      have hz : ∀ p ∈ tl, p.2 = 0 ∨ List.lookup p.1 scores = none := by
        intro p hp
        by_cases hpnm : p.1 = nm
        · exact absurd (hpnm ▸ List.mem_map.mpr ⟨p, hp, rfl⟩) hnodup'.1
        · exact honly p (List.mem_cons_of_mem _ hp) hpnm
      simp only [weightedTotals, weightedTotals_zero tl scores hz, hsc]
      simp
    · have hane : nm ≠ a := by
        intro hnm
        apply hnodup'.1
        rw [← hnm]
        exact List.mem_map.mpr ⟨(nm, w), htl, rfl⟩
      have hrest := ih hnodup'.2 htl
        (fun p hp hpn => honly p (List.mem_cons_of_mem _ hp) hpn)
      simp only [weightedTotals, hrest]
      rcases honly (a, wa) (List.mem_cons_self _ _) (Ne.symm hane) with h0 | hnone
      · subst h0
        cases hlk : List.lookup a scores with
        | none => simp [hlk]
        | some s => simp [hlk]
      · simp [hnone]

theorem batchScreenResumes_length (k : FloatKernels) (cfg : EmbedConfig)
    (rs : List Resume) (j : JobDescription) (e : Bool) (now : ℕ) :
    ∀ st, (batchScreenResumes k cfg st rs j e now).1.length = rs.length := by
  induction rs with
  | nil => intro st; rfl
  | cons r rs ih =>
    intro st
    simp only [batchScreenResumes, List.length_cons]
    rw [ih]

theorem batchScreenResumes_getElem (k : FloatKernels) (cfg : EmbedConfig)
    (rs : List Resume) (j : JobDescription) (e : Bool) (now : ℕ) :
    ∀ (st : EmbState) (i : ℕ) (r : Resume), rs[i]? = some r →
    (batchScreenResumes k cfg st rs j e now).1[i]? =
      some (sentinelOr (screenResume k cfg
        (batchScreenResumes k cfg st (rs.take i) j e now).2
        r j e now).1 now) := by
  induction rs with
  | nil =>
    intro st i r h
    simp at h
  | cons hd tl ih =>
    intro st i r h
    cases i with
    | zero =>
      have hr : hd = r := by simpa using h
      subst hr
      simp only [batchScreenResumes, List.getElem?_cons_zero, List.take_zero]
    | succ n =>
      have h' : tl[n]? = some r := by simpa using h
      simp only [batchScreenResumes, List.getElem?_cons_succ,
        List.take_succ_cons]
      exact ih _ n r h'

theorem screenResume_ok_shape (k : FloatKernels) (cfg : EmbedConfig)
    (st : EmbState) (r : Resume) (j : JobDescription) (explain : Bool)
    (now : ℕ) (res : ScreeningResult) (st' : EmbState)
    (h : screenResume k cfg st r j explain now = (.ok res, st')) :
    ∃ sEdu, scoreEducationSection k r j explain = .ok sEdu ∧
      res = screenedResult k cfg st r j explain now sEdu := by
  unfold screenResume at h
  cases heq : scoreEducationSection k r j explain with
  | error e =>
    rw [heq] at h
    simp at h
  | ok sEdu =>
    rw [heq] at h
    simp only [Prod.mk.injEq] at h
    refine ⟨sEdu, rfl, ?_⟩
    have := h.1
    exact (Except.ok.inj this).symm

theorem scoreSkillsSection_unit (k : FloatKernels) (r : Resume)
    (j : JobDescription) (rEmb jEmb : List (String × List ℚ)) (e : Bool) :
    0 ≤ (scoreSkillsSection k r j rEmb jEmb e).score ∧
    (scoreSkillsSection k r j rEmb jEmb e).score ≤ 1 := by
  simp only [scoreSkillsSection]
  exact clip_unit _

theorem scoreExperienceSection_unit (k : FloatKernels) (r : Resume)
    (j : JobDescription) (rEmb jEmb : List (String × List ℚ)) (e : Bool) :
    0 ≤ (scoreExperienceSection k r j rEmb jEmb e).score ∧
    (scoreExperienceSection k r j rEmb jEmb e).score ≤ 1 := by
  simp only [scoreExperienceSection]
  exact clip_unit _

theorem scoreKeywordMatching_unit (k : FloatKernels) (r : Resume)
    (j : JobDescription) (e : Bool) :
    0 ≤ (scoreKeywordMatching k r j e).score ∧
    (scoreKeywordMatching k r j e).score ≤ 1 := by
  simp only [scoreKeywordMatching]
  exact clip_unit _

theorem scoreProjectsSection_unit (k : FloatKernels) (r : Resume)
    (j : JobDescription) (e : Bool) :
    0 ≤ (scoreProjectsSection k r j e).score ∧
    (scoreProjectsSection k r j e).score ≤ 1 := by
  simp only [scoreProjectsSection]
  split
  · norm_num
  · exact clip_unit _

theorem scoreEducationSection_unit (k : FloatKernels) (r : Resume)
    (j : JobDescription) (e : Bool) (sc : SectionScore)
    (h : scoreEducationSection k r j e = .ok sc) :
    0 ≤ sc.score ∧ sc.score ≤ 1 := by
  unfold scoreEducationSection at h
  split at h
  all_goals split at h
  all_goals first
    | exact Except.noConfusion h
    | (rw [← Except.ok.inj h]; exact clip_unit _)

theorem processTexts_unfitted_state (k : FloatKernels) (cfg : EmbedConfig) :
    ∀ texts, (processTexts k cfg none texts).2 =
      (texts.find? (fun t => !(buildVocabCorpus cfg [t]).isEmpty)).map
        (fun t => [t]) := by
  intro texts
  induction texts with
  | nil => rfl
  | cons t ts ih =>
    by_cases hb : isBlank t = true
    · have hv : buildVocabCorpus cfg [t] = [] :=
        buildVocabCorpus_single_blank cfg hb
      have hcond : (!(buildVocabCorpus cfg [t]).isEmpty) = false := by
        rw [hv]
        rfl
      have hstep : (generateTextEmbedding k cfg none t).2 = none := by
        unfold generateTextEmbedding
        rw [hb]
        simp
      simp only [processTexts, hstep, List.find?_cons, hcond]
      exact ih
    · have hb' : isBlank t = false := by simpa using hb
      by_cases hv : buildVocabCorpus cfg [t] = []
      · have hcond : (!(buildVocabCorpus cfg [t]).isEmpty) = false := by
          rw [hv]
          rfl
        have hstep : (generateTextEmbedding k cfg none t).2 = none := by
          unfold generateTextEmbedding
          rw [hb']
          simp [hv]
        simp only [processTexts, hstep, List.find?_cons, hcond]
        exact ih
      · have hcond : (!(buildVocabCorpus cfg [t]).isEmpty) = true := by
          simp [List.isEmpty_iff, hv]
        have hstep : (generateTextEmbedding k cfg none t).2 = some [t] := by
          unfold generateTextEmbedding
          rw [hb']
          simp [hv]
        simp only [processTexts, hstep, List.find?_cons, hcond]
        rw [processTexts_fitted_state]
        rfl

theorem scoreEducationSection_list_bounds (k : FloatKernels) (r : Resume)
    (j : JobDescription) (e : Bool) (sc : SectionScore)
    (h : scoreEducationSection k r j e = .ok sc) :
    sc.matched_keywords.length ≤ r.education.length ∧
    sc.missing_keywords.length ≤ 2 := by
  unfold scoreEducationSection at h
  split at h
  all_goals split at h
  all_goals first
    | exact Except.noConfusion h
    | (rw [← Except.ok.inj h]
       constructor
       · show (if _ ∧ _ then educationFields r else []).length ≤ _
         split
         · unfold educationFields
           exact le_trans (List.length_filter_le _ _)
             (le_of_eq (List.length_map _ _))
         · simp
       · show ((if _ ∧ _ then _ else []) ++ if _ ∧ _ then _ else []).length ≤ 2
         rw [List.length_append]
         split <;> split <;> simp)

theorem embSimPick_unit (k : FloatKernels) (o1 o2 : Option (List ℚ)) :
    0 ≤ (match o1, o2 with
      | some a, some b => calcCosineQ k a b
      | _, _ => (0 : ℚ)) ∧
    (match o1, o2 with
      | some a, some b => calcCosineQ k a b
      | _, _ => (0 : ℚ)) ≤ 1 := by
  cases o1 with
  | none => simp
  | some a =>
    cases o2 with
    | none => simp
    | some b => exact calcCosineQ_unit k a b

theorem scoreSkillsSection_score_eq (k : FloatKernels) (r : Resume)
    (j : JobDescription) (rEmb jEmb : List (String × List ℚ)) (e : Bool) :
    (scoreSkillsSection k r j rEmb jEmb e).score =
      0.7 * (((pySetInter (allResumeSkills r)
          (j.required_skills ++ j.preferred_skills)).length : ℚ) /
        ((max (j.required_skills ++ j.preferred_skills).length 1 : ℕ) : ℚ)) +
      0.3 * (match List.lookup "skills" rEmb, List.lookup "skills" jEmb with
        | some a, some b => calcCosineQ k a b
        | _, _ => (0 : ℚ)) := by
  have hM := embSimPick_unit k (List.lookup "skills" rEmb)
    (List.lookup "skills" jEmb)
  have hlen : (pySetInter (allResumeSkills r)
      (j.required_skills ++ j.preferred_skills)).length ≤
      (j.required_skills ++ j.preferred_skills).length :=
    pySetInter_length_le _ _
  have hR := ratio_unit hlen
  simp only [scoreSkillsSection]
  have hD : (if (j.required_skills ++ j.preferred_skills) ≠ [] then
      ((pySetInter (allResumeSkills r)
          (j.required_skills ++ j.preferred_skills)).length : ℚ) /
        ((max (j.required_skills ++ j.preferred_skills).length 1 : ℕ) : ℚ)
      else 0) =
      ((pySetInter (allResumeSkills r)
          (j.required_skills ++ j.preferred_skills)).length : ℚ) /
        ((max (j.required_skills ++ j.preferred_skills).length 1 : ℕ) : ℚ) := by
    split
    · rfl
    · rename_i hjs
      have hempty : (j.required_skills ++ j.preferred_skills) = [] :=
        not_ne_iff.mp hjs
      rw [hempty]
      simp [pySetInter]
  rw [hD]
  apply clip_eq_self
  · have h1 : 0 ≤ 0.7 * (((pySetInter (allResumeSkills r)
        (j.required_skills ++ j.preferred_skills)).length : ℚ) /
        ((max (j.required_skills ++ j.preferred_skills).length 1 : ℕ) : ℚ)) :=
      mul_nonneg (by norm_num) hR.1
    have h2 : 0 ≤ 0.3 * (match List.lookup "skills" rEmb,
        List.lookup "skills" jEmb with
      | some a, some b => calcCosineQ k a b
      | _, _ => (0 : ℚ)) := mul_nonneg (by norm_num) hM.1
    linarith
  · have h1 : 0.7 * (((pySetInter (allResumeSkills r)
        (j.required_skills ++ j.preferred_skills)).length : ℚ) /
        ((max (j.required_skills ++ j.preferred_skills).length 1 : ℕ) : ℚ)) ≤
        0.7 * 1 := mul_le_mul_of_nonneg_left hR.2 (by norm_num)
    have h2 : 0.3 * (match List.lookup "skills" rEmb,
        List.lookup "skills" jEmb with
      | some a, some b => calcCosineQ k a b
      | _, _ => (0 : ℚ)) ≤ 0.3 * 1 :=
      mul_le_mul_of_nonneg_left hM.2 (by norm_num)
    linarith

/-! ## Claim theorems -/

/-- C1: for every valid (profile, job) input and the default section
weights, every SectionScore.score and the overall_score of a returned
ScreeningResult lie in [0, 1], even when an intermediate computation (the
raw cosine value, the additive education rules) falls outside that range —
the theorem quantifies over arbitrary float kernels, so it covers every
possible raw similarity value. -/
theorem C1_scores_in_unit_interval (k : FloatKernels) (cfg : EmbedConfig)
    (st : EmbState) (r : Resume) (j : JobDescription) (explain : Bool)
    (now : ℕ) (res : ScreeningResult) (st' : EmbState)
    (h : screenResume k cfg st r j explain now = (.ok res, st')) :
    (0 ≤ res.overall_score ∧ res.overall_score ≤ 1) ∧
    ∀ p ∈ res.section_scores, 0 ≤ p.2.score ∧ p.2.score ≤ 1 := by
  obtain ⟨sEdu, hEdu, rfl⟩ :=
    screenResume_ok_shape k cfg st r j explain now res st' h
  have hs : ∀ p ∈ sectionScoresOf k cfg st r j explain sEdu,
      0 ≤ p.2.score ∧ p.2.score ≤ 1 := by
    intro p hp
    simp only [sectionScoresOf, List.mem_cons, List.not_mem_nil,
      or_false] at hp
    rcases hp with rfl | rfl | rfl | rfl | rfl
    · exact scoreSkillsSection_unit k r j
        (generateResumeEmbeddings k cfg st r).1
        (generateJobEmbeddings k cfg
          (generateResumeEmbeddings k cfg st r).2 j).1 explain
    · exact scoreExperienceSection_unit k r j
        (generateResumeEmbeddings k cfg st r).1
        (generateJobEmbeddings k cfg
          (generateResumeEmbeddings k cfg st r).2 j).1 explain
    · exact scoreEducationSection_unit k r j explain sEdu hEdu
    · exact scoreProjectsSection_unit k r j explain
    · exact scoreKeywordMatching_unit k r j explain
  have hw : ∀ p ∈ defaultSectionWeights, 0 ≤ p.2 := by
    intro p hp
    fin_cases hp <;> norm_num
  constructor
  · simpa only [screenedResult] using
      calculateWeightedScore_unit defaultSectionWeights
        (sectionScoresOf k cfg st r j explain sEdu) hw hs
  · simpa only [screenedResult] using hs

/-- Witness for C1: concrete screening of the minimal resume and job. -/
theorem C1_scores_in_unit_interval_witness :
    (0 ≤ witnessRes.overall_score ∧ witnessRes.overall_score ≤ 1) ∧
    ∀ p ∈ witnessRes.section_scores, 0 ≤ p.2.score ∧ p.2.score ≤ 1 :=
  C1_scores_in_unit_interval zeroKernels defaultEmbedConfig none emptyResume
    emptyJob true 0 witnessRes witnessRun.2 rfl

/-- C2: batch screening over N profiles yields exactly N results in input
order; position i holds the screening result of profile i (screened with
the vectorizer state accumulated over the prefix), and a profile whose
screening raises is replaced, in place, by the sentinel result with
overall_score 0 and non-empty descriptive failure messages, while the
other profiles are still processed. -/
theorem C2_batch_order_and_sentinel (k : FloatKernels) (cfg : EmbedConfig)
    (st : EmbState) (resumes : List Resume) (j : JobDescription)
    (explain : Bool) (now : ℕ) :
    ((batchScreenResumes k cfg st resumes j explain now).1.length =
      resumes.length) ∧
    (∀ i r, resumes[i]? = some r →
      (batchScreenResumes k cfg st resumes j explain now).1[i]? =
        some (sentinelOr
          (screenResume k cfg
            (batchScreenResumes k cfg st (resumes.take i) j explain now).2
            r j explain now).1 now)) ∧
    (∀ v, sentinelOr (Except.ok v) now = v) ∧
    (∀ msg, sentinelOr (Except.error msg) now = failedResult now) ∧
    (failedResult now).overall_score = 0 ∧
    (failedResult now).recommendations =
      ["Resume screening failed - please check format"] ∧
    (failedResult now).match_explanation = "Error during processing" ∧
    (failedResult now).recommendations ≠ [] := by
  refine ⟨batchScreenResumes_length k cfg resumes j explain now st,
    fun i r h => batchScreenResumes_getElem k cfg resumes j explain now st i r h,
    fun v => rfl, fun msg => rfl, rfl, rfl, rfl, by simp [failedResult]⟩

/-- Witness for C2: a two-profile batch whose second profile (certificate
education under explain) raises and is replaced in place by the sentinel. -/
theorem C2_batch_order_and_sentinel_witness :
    (([emptyResume, certResume] : List Resume)[1]? = some certResume) ∧
    (batchScreenResumes zeroKernels defaultEmbedConfig none
        [emptyResume, certResume] emptyJob true 0).1[1]? =
      some (sentinelOr
        (screenResume zeroKernels defaultEmbedConfig
          (batchScreenResumes zeroKernels defaultEmbedConfig none
            ([emptyResume, certResume].take 1) emptyJob true 0).2
          certResume emptyJob true 0).1 0) ∧
    (batchScreenResumes zeroKernels defaultEmbedConfig none
        [emptyResume, certResume] emptyJob true 0).1[1]? =
      some (failedResult 0) := by
  refine ⟨rfl, ?_, rfl⟩
  exact (C2_batch_order_and_sentinel zeroKernels defaultEmbedConfig none
    [emptyResume, certResume] emptyJob true 0).2.1 1 certResume rfl

/-- C3 (amended): in every ScreeningResult produced by screening, every
missing-keyword list has at most 15 entries and so does every
matched-keyword list except the education section's, whose matched list is
bounded only by the number of education entries (the source never
truncates it, so it can exceed 15); skill_gaps has at most 5 entries and
recommendations at most 5. -/
theorem C3_output_list_bounds (k : FloatKernels) (cfg : EmbedConfig)
    (st : EmbState) (r : Resume) (j : JobDescription) (explain : Bool)
    (now : ℕ) (res : ScreeningResult) (st' : EmbState)
    (h : screenResume k cfg st r j explain now = (.ok res, st')) :
    (∀ p ∈ res.section_scores,
      p.2.missing_keywords.length ≤ 15 ∧
      (p.1 ≠ "education" → p.2.matched_keywords.length ≤ 15) ∧
      (p.1 = "education" →
        p.2.matched_keywords.length ≤ r.education.length)) ∧
    res.skill_gaps.length ≤ 5 ∧
    res.recommendations.length ≤ 5 := by
  obtain ⟨sEdu, hEdu, rfl⟩ :=
    screenResume_ok_shape k cfg st r j explain now res st' h
  have hedu := scoreEducationSection_list_bounds k r j explain sEdu hEdu
  refine ⟨?_, ?_, ?_⟩
  · intro p hp
    simp only [screenedResult, sectionScoresOf, List.mem_cons,
      List.not_mem_nil, or_false] at hp
    rcases hp with rfl | rfl | rfl | rfl | rfl
    · refine ⟨?_, fun _ => ?_,
        fun hc => ((by decide : ¬("skills" : String) = "education") hc).elim⟩
      · simp only [scoreSkillsSection]
        exact le_trans (take_length_le 10 _) (by norm_num)
      · simp only [scoreSkillsSection]
        exact le_trans (take_length_le 10 _) (by norm_num)
    · refine ⟨?_, fun _ => ?_,
        fun hc => ((by decide : ¬("experience" : String) = "education") hc).elim⟩
      · simp only [scoreExperienceSection]
        exact le_trans (take_length_le 10 _) (by norm_num)
      · simp only [scoreExperienceSection]
        exact le_trans (take_length_le 10 _) (by norm_num)
    · exact ⟨le_trans hedu.2 (by norm_num),
        fun hc => absurd rfl hc, fun _ => hedu.1⟩
    · refine ⟨?_, fun _ => ?_,
        fun hc => ((by decide : ¬("projects" : String) = "education") hc).elim⟩
      · simp only [scoreProjectsSection]
        split
        · norm_num
        · exact le_trans (take_length_le 10 _) (by norm_num)
      · simp only [scoreProjectsSection]
        split
        · norm_num
        · exact le_trans (take_length_le 10 _) (by norm_num)
    · refine ⟨?_, fun _ => ?_,
        fun hc => ((by decide : ¬("keywords" : String) = "education") hc).elim⟩
      · simp only [scoreKeywordMatching]
        exact take_length_le 15 _
      · simp only [scoreKeywordMatching]
        exact take_length_le 15 _
  · simp only [screenedResult, analyzeSkillGaps]
    exact take_length_le 5 _
  · simp only [screenedResult, generateRecommendations]
    exact take_length_le 5 _

/-- Witness for C3's amended bounds: the minimal concrete screening run. -/
theorem C3_output_list_bounds_witness :
    (∀ p ∈ witnessRes.section_scores,
      p.2.missing_keywords.length ≤ 15 ∧
      (p.1 ≠ "education" → p.2.matched_keywords.length ≤ 15) ∧
      (p.1 = "education" →
        p.2.matched_keywords.length ≤ emptyResume.education.length)) ∧
    witnessRes.skill_gaps.length ≤ 5 ∧
    witnessRes.recommendations.length ≤ 5 :=
  C3_output_list_bounds zeroKernels defaultEmbedConfig none emptyResume
    emptyJob true 0 witnessRes witnessRun.2 rfl

/-- C3 counterexample: a resume with sixteen relevant education entries
produces an education SectionScore whose matched-keyword list has sixteen
entries, refuting the 15-entry bound claimed for every section. -/
theorem C3_counterexample :
    c3run.1 = .ok c3res ∧
    ((List.lookup "education" c3res.section_scores).getD
      ⟨0, [], [], ""⟩).matched_keywords.length = 16 ∧
    ¬(16 ≤ 15) := by
  exact ⟨rfl, rfl, by norm_num⟩

/-- C4 (amended): two screenings of the same (profile, job) pair, each
from a freshly reset EmbeddingGenerator, agree on every field except
`processed_at`, which equals each run's own invocation timestamp; when the
timestamps coincide the results are fully identical (the scoring path is
deterministic). -/
theorem C4_deterministic_up_to_timestamp (k : FloatKernels)
    (cfg : EmbedConfig) (r : Resume) (j : JobDescription) (explain : Bool)
    (t1 t2 : ℕ) (res1 res2 : ScreeningResult) (st1 st2 : EmbState)
    (h1 : screenResume k cfg none r j explain t1 = (.ok res1, st1))
    (h2 : screenResume k cfg none r j explain t2 = (.ok res2, st2)) :
    res1.overall_score = res2.overall_score ∧
    res1.section_scores = res2.section_scores ∧
    res1.skill_gaps = res2.skill_gaps ∧
    res1.recommendations = res2.recommendations ∧
    res1.match_explanation = res2.match_explanation ∧
    res1.model_version = res2.model_version ∧
    res1.processed_at = t1 ∧ res2.processed_at = t2 ∧
    (t1 = t2 → res1 = res2) := by
  obtain ⟨e1, hEdu1, rfl⟩ :=
    screenResume_ok_shape k cfg none r j explain t1 res1 st1 h1
  obtain ⟨e2, hEdu2, rfl⟩ :=
    screenResume_ok_shape k cfg none r j explain t2 res2 st2 h2
  have he : e1 = e2 := Except.ok.inj (hEdu1.symm.trans hEdu2)
  subst he
  refine ⟨rfl, rfl, rfl, rfl, rfl, rfl, rfl, rfl, ?_⟩
  intro ht
  rw [ht]

/-- Witness for C4's amended statement: the two concrete runs at
timestamps 0 and 1. -/
theorem C4_deterministic_up_to_timestamp_witness :
    witnessRes.overall_score = c4resB.overall_score ∧
    witnessRes.section_scores = c4resB.section_scores ∧
    witnessRes.skill_gaps = c4resB.skill_gaps ∧
    witnessRes.recommendations = c4resB.recommendations ∧
    witnessRes.match_explanation = c4resB.match_explanation ∧
    witnessRes.model_version = c4resB.model_version ∧
    witnessRes.processed_at = 0 ∧ c4resB.processed_at = 1 ∧
    ((0 : ℕ) = 1 → witnessRes = c4resB) :=
  C4_deterministic_up_to_timestamp zeroKernels defaultEmbedConfig
    emptyResume emptyJob true 0 1 witnessRes c4resB witnessRun.2 c4runB.2
    rfl rfl

/-- C4 counterexample: the two runs return successfully but the two
ScreeningResult values are not identical — their `processed_at` fields are
the two distinct invocation timestamps. -/
theorem C4_counterexample :
    (screenResume zeroKernels defaultEmbedConfig none emptyResume emptyJob
      true 0).1 = .ok witnessRes ∧
    (screenResume zeroKernels defaultEmbedConfig none emptyResume emptyJob
      true 1).1 = .ok c4resB ∧
    witnessRes.processed_at = 0 ∧ c4resB.processed_at = 1 ∧
    witnessRes ≠ c4resB := by
  refine ⟨rfl, rfl, rfl, rfl, ?_⟩
  intro hcontra
  have h01 : (0 : ℕ) = 1 := congrArg ScreeningResult.processed_at hcontra
  exact absurd h01 (by decide)

/-- C5 (amended): blank or empty text yields the zero vector of the
configured dimensionality with the vectorizer state unchanged; a non-blank
text yields one tf-idf weight per vocabulary term, so its length is the
size of the vocabulary fixed at fit time (at most the configured maximum
but in general different from it), except that a failed first fit (empty
vocabulary) also yields the configured-dimensional zero vector.  The
claimed single fixed length equal to the configured dimensionality does
not hold (see the counterexample). -/
theorem C5_embedding_vector_shapes (k : FloatKernels) (cfg : EmbedConfig)
    (st : EmbState) (t : String) :
    (isBlank t = true →
      generateTextEmbedding k cfg st t = (zeros cfg.maxFeatures, st)) ∧
    (∀ c, st = some c → isBlank t = false →
      (generateTextEmbedding k cfg st t).1.length =
        (buildVocabCorpus cfg c).length ∧
      (generateTextEmbedding k cfg st t).2 = some c) ∧
    (st = none → isBlank t = false → buildVocabCorpus cfg [t] ≠ [] →
      (generateTextEmbedding k cfg st t).1.length =
        (buildVocabCorpus cfg [t]).length ∧
      (generateTextEmbedding k cfg st t).2 = some [t]) ∧
    (st = none → isBlank t = false → buildVocabCorpus cfg [t] = [] →
      generateTextEmbedding k cfg st t = (zeros cfg.maxFeatures, none)) ∧
    (∀ docs, (buildVocabCorpus cfg docs).length ≤ cfg.maxFeatures) := by
  refine ⟨?_, ?_, ?_, ?_, buildVocabCorpus_length_le cfg⟩
  · intro hb
    unfold generateTextEmbedding
    rw [hb]
    simp [zeros]
  · intro c hst hb
    subst hst
    unfold generateTextEmbedding
    rw [hb]
    simp [vecFor]
  · intro hst hb hv
    subst hst
    unfold generateTextEmbedding
    rw [hb]
    simp [hv, vecFor]
  · intro hst hb hv
    subst hst
    unfold generateTextEmbedding
    rw [hb]
    simp [hv, zeros]

/-- Witness for C5's amended statement: the blank-text branch on the
default configuration. -/
theorem C5_embedding_vector_shapes_witness :
    generateTextEmbedding zeroKernels defaultEmbedConfig none "" =
      (zeros 1000, none) :=
  (C5_embedding_vector_shapes zeroKernels defaultEmbedConfig none "").1
    (by decide)

/-- C5 counterexample: fitting the default-configured generator on the
non-empty text "python sql developer" returns a vector of length 5 (three
unigrams plus two bigrams), not of the configured dimensionality 1000,
while the empty text returns a length-1000 vector — so there is no single
fixed output length equal to the configured dimensionality. -/
theorem C5_counterexample :
    ((generateTextEmbedding zeroKernels defaultEmbedConfig none
      "python sql developer").1.length = 5) ∧
    ((generateTextEmbedding zeroKernels defaultEmbedConfig none
      "").1.length = 1000) ∧
    getEmbeddingDimensions defaultEmbedConfig = 1000 ∧
    ¬(5 = 1000) := by
  exact ⟨by decide, rfl, rfl, by decide⟩

/-- C6 (amended): on the single-text path the vectorizer is fitted at most
once, namely on the first text whose vocabulary is non-empty (blank texts
and texts whose tokens are all removed leave it unfitted); once fitted,
neither the single-text nor the batch path ever changes the fit, and only
reset clears it.  The original claim fails for the batch path, which fits
on the entire batch rather than on its first non-empty text (see the
counterexample). -/
theorem C6_fit_once_and_frozen :
    (∀ (k : FloatKernels) (cfg : EmbedConfig) (texts : List String),
      (processTexts k cfg none texts).2 =
        (texts.find? (fun t => !(buildVocabCorpus cfg [t]).isEmpty)).map
          (fun t => [t])) ∧
    (∀ (k : FloatKernels) (cfg : EmbedConfig) (c : List String)
      (t : String),
      (generateTextEmbedding k cfg (some c) t).2 = some c) ∧
    (∀ (k : FloatKernels) (cfg : EmbedConfig) (c : List String)
      (texts : List String),
      (batchGenerateEmbeddings k cfg (some c) texts).2 = some c) ∧
    (∀ st : EmbState, resetVectorizer st = none) :=
  ⟨fun k cfg texts => processTexts_unfitted_state k cfg texts,
   fun k cfg c t => generateTextEmbedding_fitted_state k cfg c t,
   fun k cfg c texts => batchGenerateEmbeddings_fitted_state k cfg c texts,
   fun _ => rfl⟩

/-- C6 counterexample: a first call to the batch path with
["python", "sql"] fits the vectorizer on the whole batch — the resulting
vocabulary contains "sql", which does not occur in the first non-empty
text "python" — refuting "fitted on the first non-empty text it ever
receives". -/
theorem C6_counterexample :
    (batchGenerateEmbeddings zeroKernels defaultEmbedConfig none
      ["python", "sql"]).2 = some ["python", "sql"] ∧
    (["python", "sql"].find? (fun t => !(isBlank t))) = some "python" ∧
    buildVocabCorpus defaultEmbedConfig ["python", "sql"] =
      ["python", "sql"] ∧
    buildVocabCorpus defaultEmbedConfig ["python"] = ["python"] ∧
    ¬((["python", "sql"] : List String) = ["python"]) := by
  exact ⟨rfl, rfl, by decide, by decide, by decide⟩

/-- C7 (amended): the skills section score equals 0.7 times
|matched| / max(|job_skills|, 1) plus 0.3 times the cosine similarity of
the two skills vectors, where job_skills is the concatenation of the
required and preferred lists (entries counted with multiplicity, not the
union the claim stated — see the counterexample) and matched is the
case-sensitive set intersection with the candidate's skills; on the spec's
worked example the matched list is ["Python", "SQL"], the missing list is
["Go"], and the direct-match ratio is 2/3. -/
theorem C7_skills_formula_and_example (k : FloatKernels) (r : Resume)
    (j : JobDescription) (rEmb jEmb : List (String × List ℚ)) (e : Bool) :
    ((scoreSkillsSection k r j rEmb jEmb e).score =
      0.7 * (((pySetInter (allResumeSkills r)
          (j.required_skills ++ j.preferred_skills)).length : ℚ) /
        ((max (j.required_skills ++ j.preferred_skills).length 1 : ℕ) : ℚ)) +
      0.3 * (match List.lookup "skills" rEmb, List.lookup "skills" jEmb with
        | some a, some b => calcCosineQ k a b
        | _, _ => (0 : ℚ))) ∧
    pySetInter (allResumeSkills exampleResume)
      (exampleJob.required_skills ++ exampleJob.preferred_skills) =
      ["Python", "SQL"] ∧
    pySetDiff (exampleJob.required_skills ++ exampleJob.preferred_skills)
      (allResumeSkills exampleResume) = ["Go"] ∧
    (((pySetInter (allResumeSkills exampleResume)
        (exampleJob.required_skills ++ exampleJob.preferred_skills)).length : ℚ) /
      ((max (exampleJob.required_skills ++
        exampleJob.preferred_skills).length 1 : ℕ) : ℚ) = 2 / 3) := by
  refine ⟨scoreSkillsSection_score_eq k r j rEmb jEmb e,
    by decide, by decide, ?_⟩
  have h1 : pySetInter (allResumeSkills exampleResume)
      (exampleJob.required_skills ++ exampleJob.preferred_skills) =
      ["Python", "SQL"] := by decide
  have h2 : (exampleJob.required_skills ++
      exampleJob.preferred_skills).length = 3 := by decide
  rw [h1, h2]
  norm_num

/-- C7 counterexample: with required = preferred = ["Python"] and a
candidate knowing Python, both skills tf-idf vectors are [1.0] and their
cosine is 1.0, so the code scores clip(0.7·(1/2) + 0.3·1.0) = 0.65 =
13/20 — it divides by the two-element concatenated list — while the
claimed union-based formula gives 0.7·(1/1) + 0.3·1.0 = 1.0. -/
theorem C7_counterexample :
    c7run.1 = .ok c7res ∧
    List.lookup "skills" c7res.section_scores = some c7skills ∧
    c7skills.score = 13 / 20 ∧
    ((dupJob.required_skills ++ dupJob.preferred_skills).dedup.length = 1) ∧
    ((0.7 : ℚ) * (1 / 1) + 0.3 * 1 = 1) ∧
    ¬((13 : ℚ) / 20 = 1) := by
  refine ⟨rfl, rfl, ?_, by decide, by norm_num, by norm_num⟩
  have hc : c7skills = scoreSkillsSection c7Kernels dupResume dupJob
      (generateResumeEmbeddings c7Kernels defaultEmbedConfig none
        dupResume).1
      (generateJobEmbeddings c7Kernels defaultEmbedConfig
        (generateResumeEmbeddings c7Kernels defaultEmbedConfig none
          dupResume).2 dupJob).1
      false := rfl
  rw [hc, scoreSkillsSection_score_eq]
  have h1 : pySetInter (allResumeSkills dupResume)
      (dupJob.required_skills ++ dupJob.preferred_skills) = ["Python"] := by
    decide
  have h2 : (dupJob.required_skills ++ dupJob.preferred_skills).length = 2 := by
    decide
  have hv1 : List.lookup "skills"
      (generateResumeEmbeddings c7Kernels defaultEmbedConfig none
        dupResume).1 = some [(1 : ℚ)] := rfl
  have hv2 : List.lookup "skills"
      (generateJobEmbeddings c7Kernels defaultEmbedConfig
        (generateResumeEmbeddings c7Kernels defaultEmbedConfig none
          dupResume).2 dupJob).1 = some [(1 : ℚ)] := rfl
  have hcone : calcCosineQ c7Kernels [(1 : ℚ)] [(1 : ℚ)] = 1 := by
    have hnz : nearZero [(1 : ℚ)] = false := by
      unfold nearZero
      simp
      norm_num
    unfold calcCosineQ
    rw [hnz]
    simp [clip, c7Kernels]
  rw [h1, h2, hv1, hv2]
  simp only [hcone]
  have h3 : ((max 2 1 : ℕ) : ℚ) = 2 := by norm_num
  rw [h3]
  norm_num

/-- C8 (amended): the cosine primitive returns 0.0 whenever either input
is within numpy's allclose tolerance of zero (every component at most
1e-8 in absolute value) — in particular whenever either input is
all-zero, since all-zero vectors are within the tolerance; it returns 1.0
when both inputs are the same vector that is not within that tolerance
(not for every non-zero vector — see the counterexample); and it always
returns a value clipped into [0, 1]. -/
theorem C8_cosine_primitive :
    (∀ a b : List ℚ, nearZero a = true →
      calculateCosineSimilarity a b = 0 ∧
      calculateCosineSimilarity b a = 0) ∧
    (∀ a : List ℚ, a.all (fun x => decide (x = 0)) = true →
      nearZero a = true) ∧
    (∀ v : List ℚ, nearZero v = false →
      calculateCosineSimilarity v v = 1) ∧
    (∀ a b : List ℚ, 0 ≤ calculateCosineSimilarity a b ∧
      calculateCosineSimilarity a b ≤ 1) := by
  refine ⟨?_, ?_, ?_, ?_⟩
  · intro a b hz
    constructor
    · unfold calculateCosineSimilarity
      rw [hz]
      simp
    · unfold calculateCosineSimilarity
      rw [hz]
      simp
  · intro a h
    unfold nearZero
    rw [List.all_eq_true] at h ⊢
    intro x hx
    have hx0 : x = 0 := by simpa using h x hx
    subst hx0
    simp
  · intro v hnz
    unfold calculateCosineSimilarity
    rw [hnz]
    have hpos : 0 < normSqQ v := normSqQ_pos_of_not_nearZero hnz
    have hcast : (0 : ℝ) < ((normSqQ v : ℚ) : ℝ) := by exact_mod_cast hpos
    rw [dotQ_self]
    have hsqrt : Real.sqrt (((normSqQ v * normSqQ v : ℚ) : ℝ)) =
        ((normSqQ v : ℚ) : ℝ) := by
      push_cast
      exact Real.sqrt_mul_self (le_of_lt hcast)
    rw [hsqrt, div_self (ne_of_gt hcast)]
    norm_num
  · intro a b
    unfold calculateCosineSimilarity
    split
    · norm_num
    · split
      · norm_num
      · constructor
        · exact le_min (by norm_num) (le_max_left 0 _)
        · exact min_le_left 1 _

/-- Witness for C8's amended statement: the unit vector [1] for the 1.0
conjunct, and the within-tolerance non-zero vector [1e-9] for the 0.0
conjunct. -/
theorem C8_cosine_primitive_witness :
    (nearZero [(1 : ℚ)] = false ∧
      calculateCosineSimilarity [(1 : ℚ)] [(1 : ℚ)] = 1) ∧
    (nearZero [(1 : ℚ) / 1000000000] = true ∧
      calculateCosineSimilarity [(1 : ℚ) / 1000000000] [(1 : ℚ)] = 0) := by
  have h : nearZero [(1 : ℚ)] = false := by
    unfold nearZero
    simp
    norm_num
  have hz : nearZero [(1 : ℚ) / 1000000000] = true := by
    unfold nearZero
    simp
    rw [abs_of_nonneg (by norm_num)]
    norm_num
  exact ⟨⟨h, C8_cosine_primitive.2.2.1 [(1 : ℚ)] h⟩,
    ⟨hz, (C8_cosine_primitive.1 [(1 : ℚ) / 1000000000] [(1 : ℚ)] hz).1⟩⟩

/-- C8 counterexample: the vector [1e-9] is non-zero, yet the primitive
returns 0.0 for cosine([1e-9], [1e-9]) because `np.allclose` treats it as
zero (tolerance 1e-8), refuting "returns 1.0 when both inputs are the same
non-zero vector". -/
theorem C8_counterexample :
    ¬(([(1 : ℚ) / 1000000000]).all (fun x => decide (x = 0)) = true) ∧
    calculateCosineSimilarity [(1 : ℚ) / 1000000000]
      [(1 : ℚ) / 1000000000] = 0 ∧
    ¬((0 : ℝ) = 1) := by
  refine ⟨?_, ?_, by norm_num⟩
  · simp
  · have hz : nearZero [(1 : ℚ) / 1000000000] = true := by
      unfold nearZero
      simp
      rw [abs_of_nonneg (by norm_num)]
      norm_num
    unfold calculateCosineSimilarity
    rw [hz]
    simp

/-- C9: skill_gaps is exactly the job's required skills that do not occur
case-insensitively among any of the candidate's skills, in job-listing
order, truncated to the first five. -/
theorem C9_skill_gaps_exact (r : Resume) (j : JobDescription) :
    analyzeSkillGaps r j =
      (j.required_skills.filter (fun s =>
        decide (∀ sk ∈ allResumeSkills r, lowerStr sk ≠ lowerStr s))).take
        5 := by
  simp only [analyzeSkillGaps]
  congr 1
  apply List.filter_congr
  intro x hx
  rw [contains_eq_decide_mem]
  by_cases hmem : lowerStr x ∈ (allResumeSkills r).map lowerStr
  · rcases List.mem_map.mp hmem with ⟨sk, hsk, heq⟩
    have hnall : ¬ (∀ sk ∈ allResumeSkills r, lowerStr sk ≠ lowerStr x) :=
      fun hall => hall sk hsk heq
    simp [hmem, hnall]
  · have hall : ∀ sk ∈ allResumeSkills r, lowerStr sk ≠ lowerStr x := by
      intro sk hsk heq
      exact hmem (List.mem_map.mpr ⟨sk, hsk, heq⟩)
    simp [hmem]
    exact hall

/-- C10: when the section-score map contains exactly one section whose
configured weight is positive (every other configured weight is
non-negative and is either zero or attached to a section absent from the
map), the weighted aggregation returns that section's score exactly. -/
theorem C10_single_weight_identity (weights : List (String × ℚ))
    (scores : List (String × SectionScore)) (nm : String) (w : ℚ)
    (sc : SectionScore)
    (hnodup : (weights.map Prod.fst).Nodup)
    (hnn : ∀ p ∈ weights, 0 ≤ p.2)
    (hmem : (nm, w) ∈ weights)
    (hw : 0 < w)
    (hsc : List.lookup nm scores = some sc)
    (hone : ∀ p ∈ weights, p.1 ≠ nm →
      ¬(0 < p.2) ∨ List.lookup p.1 scores = none) :
    calculateWeightedScore weights scores = sc.score := by
  have honly : ∀ p ∈ weights, p.1 ≠ nm →
      p.2 = 0 ∨ List.lookup p.1 scores = none := by
    intro p hp hpn
    rcases hone p hp hpn with hle | hnone
    · exact Or.inl (le_antisymm (not_lt.mp hle) (hnn p hp))
    · exact Or.inr hnone
  have ht := weightedTotals_single weights scores nm w sc hnodup hmem hsc
    honly
  simp only [calculateWeightedScore, ht]
  rw [if_pos hw]
  exact mul_div_cancel_right₀ _ (ne_of_gt hw)

/-- Witness for C10: the default weight map with a score map containing
only the skills section. -/
theorem C10_single_weight_identity_witness :
    calculateWeightedScore defaultSectionWeights
      [("skills", demoSectionScore)] = demoSectionScore.score := by
  apply C10_single_weight_identity defaultSectionWeights
    [("skills", demoSectionScore)] "skills" 0.35 demoSectionScore
  · decide
  · intro p hp
    fin_cases hp <;> norm_num
  · exact List.mem_cons_self _ _
  · norm_num
  · rfl
  · intro p hp hpn
    fin_cases hp
    · exact absurd rfl hpn
    all_goals exact Or.inr rfl
